import Mathlib

/-!
# CityCare: the complaint lifecycle handlers

A shallow embedding of the Express route handlers of `backend/routes/complaints.js`
and `backend/routes/admin.js` that create and mutate complaints, over the Mongoose
schemas of `backend/database.js`.

* The database is a `Store`: the Complaint collection, the StatusUpdate collection
  (in creation order, the order `sort({ createdAt: 1 })` reads it in) and the source
  of fresh ObjectIds.
* A handler is a function from the store and the request to the response and the
  next store. A handler that is mounted behind `authenticateToken` takes the
  identity that middleware stored in `req.user`.
* Request fields that carry text are `Option String` (`none` is `undefined`); the
  enumerations of the schemas are kept as the strings the code stores, and
  `save()` is modelled with the schema validation of the paths the handler set,
  the setters of the schema (`trim`) and its `timestamps`.
* Time enters as a parameter: a handler takes the time its `save()` happens at.
-/

namespace CityCare

/-! ## Values -/

/-- A MongoDB ObjectId, identified by the number its twelve bytes encode. -/
structure ObjectId where
  value : Nat
  deriving DecidableEq, Repr

/-- The text `ObjectId.prototype.toString()` returns: the hexadecimal digits of the id. -/
def ObjectId.toString (o : ObjectId) : String :=
  String.mk (Nat.toDigits 16 o.value)

/-- The two kinds of JavaScript value the handlers compare with `===` and `!==`:
a primitive string and an ObjectId object. -/
inductive JsValue where
  | str (s : String)
  | obj (o : ObjectId)
  deriving DecidableEq, Repr

/-- JavaScript strict equality `===`. Operands of different types are never equal
(no coercion takes place); two strings are equal when they have the same
characters; two objects are equal only when they are one and the same object,
which two ObjectId instances read from two different documents never are. -/
def strictEquals : JsValue → JsValue → Bool
  | .str a, .str b => a == b
  | _, _ => false

/-- JavaScript truthiness of an optional text field: `undefined` and the empty
string are falsy. -/
def truthy : Option String → Bool
  | some s => s != ""
  | none => false

/-- The expression `x || null` on an optional text field. -/
def orNull (x : Option String) : Option String :=
  if truthy x then x else none

/-- The characters `String.prototype.trim` removes, which are the WhiteSpace and the
LineTerminator code points of ECMAScript: tab, line feed, vertical tab, form feed,
carriage return, space, no-break space, U+1680, U+2000 to U+200A, U+2028,
U+2029, U+202F, U+205F, U+3000 and U+FEFF. -/
def isJsWhitespace (c : Char) : Bool :=
  [0x09, 0x0A, 0x0B, 0x0C, 0x0D, 0x20, 0xA0, 0x1680, 0x2028, 0x2029, 0x202F, 0x205F, 0x3000,
    0xFEFF].contains c.toNat || (0x2000 ≤ c.toNat && c.toNat ≤ 0x200A)

/-- The effect of the schema option `trim: true` on a stored string: Mongoose calls
`String.prototype.trim` on it. -/
def trim (s : String) : String :=
  String.mk ((s.data.dropWhile isJsWhitespace).reverse.dropWhile isJsWhitespace).reverse

/-- A text field the handler hands to a JavaScript parsing builtin: the text the
request carries and the value the builtin makes of it (`none` when the result is
`NaN`, or an Invalid Date). -/
structure Parsed (α : Type) where
  text : String
  value : Option α
  deriving DecidableEq, Repr

/-- A value of a parsed request body (`express.json`, `express.urlencoded`), as far
as the handlers look into it. A text carries the number `Number(text)` makes of
it; an array carries the number its elements joined by commas denote, which is
what a comparison with a number makes of an array. -/
inductive JsonValue where
  | null
  | bool (b : Bool)
  | number (n : Rat)
  | text (t : Parsed Rat)
  | array (value : Option Rat)
  | object
  deriving DecidableEq, Repr

/-- The expression `!v` on a body field (`none` is `undefined`): `undefined`, `null`,
`false`, the number 0 and the empty text are falsy, every array and object is
truthy. -/
def JsonValue.falsy : Option JsonValue → Bool
  | none => true
  | some .null => true
  | some (.bool b) => !b
  | some (.number n) => n == 0
  | some (.text t) => t.text == ""
  | some (.array _) => false
  | some .object => false

/-- The number a relational operator makes of a value before it compares
(`ToNumber`); `none` is `NaN`. -/
def JsonValue.toNumber : JsonValue → Option Rat
  | .null => some 0
  | .bool b => some (if b then 1 else 0)
  | .number n => some n
  | .text t => t.value
  | .array v => v
  | .object => none

/-- Mongoose's cast of a value to a path of type `Number` (`castNumber`): `null` and
the empty text are kept as no value, a boolean and a text go through `Number()`,
and `NaN`, an array and an object make the cast throw (the outer `none`). -/
def castNumber : JsonValue → Option (Option Rat)
  | .null => some none
  | .bool b => some (some (if b then 1 else 0))
  | .number n => some (some n)
  | .text t => if t.text == "" then some none else t.value.map some
  | .array _ => none
  | .object => none

/-! ## Schemas (`backend/database.js`) -/

/-- The identity `authenticateToken` stores in `req.user`:
`{ id: user._id, username: user.username, role: user.role }`. -/
structure ReqUser where
  id : ObjectId
  username : String
  role : String
  deriving DecidableEq, Repr

/-- The `location` sub-document of a complaint. -/
structure Location where
  latitude : Rat
  longitude : Rat
  address : Option String
  deriving DecidableEq, Repr

/-- The `anonymousInfo` sub-document of a complaint. -/
structure AnonymousInfo where
  name : Option String
  email : Option String
  phone : Option String
  deriving DecidableEq, Repr

/-- One element of `internalNotes`. -/
structure InternalNote where
  note : String
  addedBy : String
  addedAt : Nat
  deriving DecidableEq, Repr

/-- One element of `votes`. -/
structure Vote where
  user : ObjectId
  voteType : String
  deriving DecidableEq, Repr

/-- The nested `feedback` path of a complaint. It is a nested path and not a
sub-document, so `complaint.feedback` is always an object and each of its fields
may be unset. -/
structure Feedback where
  rating : Option Rat
  comment : Option String
  submittedBy : Option ObjectId
  submittedAt : Option Nat
  deriving DecidableEq, Repr

/-- A document of the Complaint collection: the paths of the schema and the two
timestamps that the schema option `timestamps: true` adds. -/
structure Complaint where
  _id : ObjectId
  title : String
  description : String
  category : String
  location : Location
  image_url : Option String
  status : String
  citizen : Option ObjectId
  anonymousInfo : Option AnonymousInfo
  assignedDepartment : String
  assignedTo : Option String
  priority : String
  escalated : Bool
  deadline : Option Int
  internalNotes : List InternalNote
  votes : List Vote
  voteCount : Int
  feedback : Feedback
  createdAt : Nat
  updatedAt : Nat
  deriving DecidableEq, Repr

/-- A document of the StatusUpdate collection. -/
structure StatusUpdate where
  _id : ObjectId
  complaint : ObjectId
  status : String
  comment : Option String
  updatedBy : String
  department : Option String
  deriving DecidableEq, Repr

/-- The enum of `status` in the Complaint and StatusUpdate schemas, which is also
`validStatuses` of the status route. -/
def validStatuses : List String := ["pending", "in_progress", "resolved", "closed"]

/-- The enum of `assignedDepartment` and of `StatusUpdate.department`, which is also
`validDepartments` of the transfer route. -/
def validDepartments : List String :=
  ["sanitation", "roads", "electricity", "water", "traffic", "general"]

/-- The enum of `category`. -/
def validCategories : List String :=
  ["pothole", "garbage", "streetlight", "traffic", "sidewalk", "drainage", "electricity",
    "water", "other"]

/-- The enum of `priority`. The schema literal defines the key `priority` twice;
the later definition is the one the object keeps. -/
def validPriorities : List String := ["low", "medium", "high", "emergency"]

/-! ## The store -/

/-- The database: both collections and the counter fresh ObjectIds are drawn from. -/
structure Store where
  complaints : List Complaint
  statusUpdates : List StatusUpdate
  nextId : Nat
  deriving DecidableEq, Repr

/-- The store with no documents. -/
def Store.empty : Store := { complaints := [], statusUpdates := [], nextId := 0 }

/-- The query `Complaint.findById(id)`. -/
def findById (s : Store) (id : ObjectId) : Option Complaint :=
  s.complaints.find? (fun c => c._id == id)

/-- Writing back a loaded complaint with `complaint.save()`: the stored document
with that `_id` is replaced. -/
def saveComplaint (s : Store) (c : Complaint) : Store :=
  { s with complaints := s.complaints.map (fun d => if d._id == c._id then c else d) }

/-- The hook that `timestamps: true` runs when a loaded document is saved: `updatedAt`
becomes the time of the save when a path of the document was modified, and stays
as it was when none was. `loaded` is the document as `findById` returned it,
`changed` the document after the assignments of the handler. -/
def timestamped (loaded changed : Complaint) (savedAt : Nat) : Complaint :=
  { changed with updatedAt := if changed = loaded then loaded.updatedAt else savedAt }

/-- The schema validation `statusUpdate.save()` runs on a new StatusUpdate:
`status` is required and of the enum, `updatedBy` is required, `department` is of
the enum when set. -/
def statusUpdateValid (status : String) (updatedBy : String) (department : Option String) :
    Bool :=
  validStatuses.contains status && updatedBy != "" &&
    (match department with
     | some d => validDepartments.contains d
     | none => true)

/-- Saving a new StatusUpdate: `new StatusUpdate({...})` followed by `save()`.
The result is `none` when validation rejects the document (`save()` throws). -/
def saveStatusUpdate (s : Store) (complaint : ObjectId) (status : String)
    (comment : Option String) (updatedBy : String) (department : Option String) :
    Option Store :=
  if statusUpdateValid status updatedBy department then
    some { s with
      statusUpdates := s.statusUpdates ++
        [{ _id := ⟨s.nextId⟩, complaint := complaint, status := status,
           comment := comment.map trim, updatedBy := updatedBy, department := department }],
      nextId := s.nextId + 1 }
  else none

/-! ## Responses -/

/-- An HTTP response: the status code and the fields of the JSON body the
handlers send. -/
structure Response where
  status : Nat
  error : Option String := none
  message : Option String := none
  id : Option ObjectId := none
  voteCount : Option Int := none
  deriving DecidableEq, Repr

/-- The reply `res.status(code).json({ error: msg })`. -/
def errorResponse (code : Nat) (msg : String) : Response := { status := code, error := some msg }

/-- The reply `res.json({ message: msg })`, sent with status 200. -/
def okResponse (msg : String) : Response := { status := 200, message := some msg }

/-! ## Voting (`POST /:id/vote`) -/

/-- The number of entries of a vote list with the given type:
`votes.filter(v => v.voteType === t).length`. -/
def countVotes (t : String) (votes : List Vote) : Int :=
  ((votes.filter (fun v => v.voteType == t)).length : Int)

/-- The recomputed count: upvotes minus downvotes. -/
def recount (votes : List Vote) : Int :=
  countVotes "upvote" votes - countVotes "downvote" votes

/-- The predicate of `complaint.votes.find(vote => vote.user.toString() === req.user.id)`:
the left operand is a string, the right operand is the ObjectId `req.user.id`. -/
def isVoteOf (user : ReqUser) (vote : Vote) : Bool :=
  strictEquals (.str vote.user.toString) (.obj user.id)

/-- The assignment `existingVote.voteType = voteType` on the element `find`
returned, which is the first element that satisfies the predicate. -/
def setFirstVoteType (p : Vote → Bool) (voteType : String) : List Vote → List Vote
  | [] => []
  | v :: vs =>
    if p v then { v with voteType := voteType } :: vs
    else v :: setFirstVoteType p voteType vs

/-- The handler of `POST /:id/vote`, behind `authenticateToken`. The parameter
`id` is `req.params.id` cast to an ObjectId (`none` when the text is not an
ObjectId, in which case `findById` throws); `savedAt` is the time of
`complaint.save()`. -/
def vote (s : Store) (user : ReqUser) (id : Option ObjectId) (voteType : Option String)
    (savedAt : Nat) : Response × Store :=
  match voteType with
  | none => (errorResponse 400 "Invalid vote type", s)
  | some vt =>
    if !(["upvote", "downvote"].contains vt) then (errorResponse 400 "Invalid vote type", s)
    else
      match id with
      | none => (errorResponse 500 "Failed to record vote", s)
      | some id =>
        match findById s id with
        | none => (errorResponse 404 "Complaint not found", s)
        | some complaint =>
          match complaint.votes.find? (isVoteOf user) with
          | some existingVote =>
            if existingVote.voteType == vt then (okResponse "Already voted with this type", s)
            else
              let votes := setFirstVoteType (isVoteOf user) vt complaint.votes
              let saved := timestamped complaint
                { complaint with votes := votes, voteCount := recount votes } savedAt
              ({ status := 200, message := some "Vote recorded successfully",
                 voteCount := some saved.voteCount }, saveComplaint s saved)
          | none =>
            let votes := complaint.votes ++ [{ user := user.id, voteType := vt }]
            let saved := timestamped complaint
              { complaint with votes := votes, voteCount := recount votes } savedAt
            ({ status := 200, message := some "Vote recorded successfully",
               voteCount := some saved.voteCount }, saveComplaint s saved)

/-! ## Feedback (`POST /:id/feedback`) -/

/-- The guard `!rating || rating < 1 || rating > 5` on the body field `rating`
(`none` is `undefined`). A comparison with `NaN` is false, so a value that denotes
no number passes the two comparisons. -/
def ratingRejected (rating : Option JsonValue) : Bool :=
  JsonValue.falsy rating ||
    match rating.bind JsonValue.toNumber with
    | some n => n < 1 || n > 5
    | none => false

/-- What `complaint.save()` makes of the rating assigned to `feedback.rating`, a path
of type `Number` with `min: 1` and `max: 5`: the value cast to a number, or `none`
when the cast or a validator rejects it and `save()` throws. -/
def storedRating (rating : Option JsonValue) : Option (Option Rat) :=
  match rating with
  | none => some none
  | some v =>
    match castNumber v with
    | none => none
    | some none => some none
    | some (some n) => if 1 ≤ n && n ≤ 5 then some (some n) else none

/-- The guard `complaint.citizen && complaint.citizen.toString() !== req.user.id`. -/
def notOriginalComplainant (complaint : Complaint) (user : ReqUser) : Bool :=
  match complaint.citizen with
  | none => false
  | some citizen => !(strictEquals (.str citizen.toString) (.obj user.id))

/-- The guard `complaint.feedback && complaint.feedback.submittedBy`. -/
def feedbackExists (complaint : Complaint) : Bool :=
  complaint.feedback.submittedBy.isSome

/-- The handler of `POST /:id/feedback`, behind `authenticateToken`; `now` is the
value of `new Date()` and `savedAt` the time of `complaint.save()`. -/
def submitFeedback (s : Store) (user : ReqUser) (id : Option ObjectId)
    (rating : Option JsonValue) (comment : Option String) (now savedAt : Nat) :
    Response × Store :=
  if ratingRejected rating then (errorResponse 400 "Rating must be between 1 and 5", s)
  else
    match id with
    | none => (errorResponse 500 "Failed to submit feedback", s)
    | some id =>
      match findById s id with
      | none => (errorResponse 404 "Complaint not found", s)
      | some complaint =>
        if complaint.status != "resolved" then
          (errorResponse 400 "Can only provide feedback for resolved complaints", s)
        else if notOriginalComplainant complaint user then
          (errorResponse 403 "Only the original complainant can provide feedback", s)
        else if feedbackExists complaint then
          (errorResponse 400 "Feedback already submitted for this complaint", s)
        else
          -- `complaint.save()` casts and validates the rating the handler assigned
          match storedRating rating with
          | none => (errorResponse 500 "Failed to submit feedback", s)
          | some stored =>
            let saved := timestamped complaint
              { complaint with
                feedback := { rating := stored, comment := comment,
                              submittedBy := some user.id, submittedAt := some now } }
              savedAt
            (okResponse "Feedback submitted successfully", saveComplaint s saved)

/-! ## Submission (`POST /`) -/

/-- The fields the submission handler reads from the multipart form `req.body`. -/
structure SubmitBody where
  title : Option String
  description : Option String
  category : Option String
  latitude : Option (Parsed Rat)
  longitude : Option (Parsed Rat)
  address : Option String
  citizen_name : Option String
  citizen_email : Option String
  citizen_phone : Option String
  isAnonymous : Option String
  deriving DecidableEq, Repr

/-- The lookup `departmentMapping[category] || 'general'`. -/
def departmentMapping (category : String) : String :=
  if category == "pothole" then "roads"
  else if category == "garbage" then "sanitation"
  else if category == "streetlight" then "electricity"
  else if category == "traffic" then "traffic"
  else if category == "sidewalk" then "roads"
  else if category == "drainage" then "water"
  else if category == "electricity" then "electricity"
  else if category == "water" then "water"
  else if category == "other" then "general"
  else "general"

/-- Truthiness of a parsed text field: that of its text. -/
def truthyParsed {α : Type} : Option (Parsed α) → Bool
  | some p => p.text != ""
  | none => false

/-- The handler of `POST /`: `user` is what `req.user` holds when the handler runs
(`none` is `undefined`), `file` is the name of the uploaded image and `now` the
time of the first `save()`, which stamps both `createdAt` and `updatedAt`. -/
def submit (s : Store) (user : Option ReqUser) (body : SubmitBody) (file : Option String)
    (now : Nat) : Response × Store :=
  match body.title, body.description, body.category, body.latitude, body.longitude with
  | some title, some description, some category, some latitude, some longitude =>
    if title == "" || description == "" || category == "" || latitude.text == "" ||
        longitude.text == "" then
      (errorResponse 400 "Missing required fields", s)
    else
      let assignedDepartment := departmentMapping category
      let linked : Bool :=
        match user with
        | some u => u.role == "citizen" && !(truthy body.isAnonymous)
        | none => false
      let citizen : Option ObjectId :=
        match user with
        | some u => if linked then some u.id else none
        | none => none
      let anonymousInfo : Option AnonymousInfo :=
        if !linked && (body.isAnonymous == some "true" || user.isNone) then
          some { name := orNull body.citizen_name, email := orNull body.citizen_email,
                 phone := orNull body.citizen_phone }
        else none
      -- `complaint.save()` validates the new document against the schema
      match latitude.value, longitude.value with
      | some lat, some lng =>
        if trim title == "" || trim description == "" || !(validCategories.contains category)
        then (errorResponse 500 "Database error", s)
        else
          let complaint : Complaint :=
            { _id := ⟨s.nextId⟩, title := trim title, description := trim description,
              category := category,
              location := { latitude := lat, longitude := lng, address := body.address.map trim },
              image_url := file.map (fun name => "/uploads/" ++ name),
              status := "pending", citizen := citizen, anonymousInfo := anonymousInfo,
              assignedDepartment := assignedDepartment, assignedTo := none,
              priority := "medium", escalated := false, deadline := none,
              internalNotes := [], votes := [], voteCount := 0,
              feedback := { rating := none, comment := none, submittedBy := none,
                            submittedAt := none },
              createdAt := now, updatedAt := now }
          let s1 : Store :=
            { s with complaints := s.complaints ++ [complaint], nextId := s.nextId + 1 }
          let updatedBy :=
            match user with
            | some u => u.username
            | none => "Anonymous"
          match saveStatusUpdate s1 complaint._id "pending" (some "Complaint submitted")
              updatedBy none with
          | some s2 =>
            ({ status := 201, id := some complaint._id,
               message := some "Complaint submitted successfully" }, s2)
          | none => (errorResponse 500 "Database error", s1)
      | _, _ => (errorResponse 500 "Database error", s)
  | _, _, _, _, _ => (errorResponse 400 "Missing required fields", s)

/-- The route `POST /` as the router mounts it: `upload.single('image')` followed by
the handler. `authenticateToken` is not in the chain and no middleware of the
application assigns `req.user`, so the handler runs with `req.user` undefined
whatever `Authorization` header the request carries. -/
def postComplaint (s : Store) (_authorization : Option String) (body : SubmitBody)
    (file : Option String) (now : Nat) : Response × Store :=
  submit s none body file now

/-! ## Status change and transfer (`PUT /:id/status`, `PUT /:id/transfer`) -/

/-- The expression `x || d` for an optional text `x` and a text `d`. -/
def orText (x : Option String) (d : String) : String :=
  match x with
  | some v => if v != "" then v else d
  | none => d

/-- The handler of `PUT /:id/status`, behind `authenticateToken`; `savedAt` is the
time of `complaint.save()`. -/
def updateStatus (s : Store) (user : ReqUser) (id : Option ObjectId)
    (status comment assignedDepartment assignedTo : Option String) (savedAt : Nat) :
    Response × Store :=
  if user.role != "admin" then (errorResponse 403 "Access denied", s)
  else
    match status with
    | none => (errorResponse 400 "Status is required", s)
    | some status =>
      if status == "" then (errorResponse 400 "Status is required", s)
      else if !(validStatuses.contains status) then (errorResponse 400 "Invalid status", s)
      else
        match id with
        | none => (errorResponse 500 "Database error", s)
        | some id =>
          match findById s id with
          | none => (errorResponse 404 "Complaint not found", s)
          | some complaint =>
            let saved : Complaint := timestamped complaint
              { complaint with
                status := status,
                assignedDepartment := orText assignedDepartment complaint.assignedDepartment,
                assignedTo :=
                  if truthy assignedTo then assignedTo.map trim else complaint.assignedTo }
              savedAt
            -- `complaint.save()` validates the department the handler assigned
            if truthy assignedDepartment && !(validDepartments.contains saved.assignedDepartment)
            then (errorResponse 500 "Database error", s)
            else
              let s1 := saveComplaint s saved
              match saveStatusUpdate s1 saved._id status (orNull comment) user.username
                  (some (orText assignedDepartment saved.assignedDepartment)) with
              | some s2 => (okResponse "Status updated successfully", s2)
              | none => (errorResponse 500 "Database error", s1)

/-- The handler of `PUT /:id/transfer`, behind `authenticateToken`; `savedAt` is the
time of `complaint.save()`. -/
def transferDepartment (s : Store) (user : ReqUser) (id : Option ObjectId)
    (department comment : Option String) (savedAt : Nat) : Response × Store :=
  if user.role != "admin" then (errorResponse 403 "Access denied", s)
  else
    match department with
    | none => (errorResponse 400 "Department is required", s)
    | some department =>
      if department == "" then (errorResponse 400 "Department is required", s)
      else if !(validDepartments.contains department) then
        (errorResponse 400 "Invalid department", s)
      else
        match id with
        | none => (errorResponse 500 "Database error", s)
        | some id =>
          match findById s id with
          | none => (errorResponse 404 "Complaint not found", s)
          | some complaint =>
            let oldDepartment := complaint.assignedDepartment
            let saved : Complaint :=
              timestamped complaint { complaint with assignedDepartment := department } savedAt
            let s1 := saveComplaint s saved
            match saveStatusUpdate s1 saved._id saved.status
                (some (orText comment
                  ("Transferred from " ++ oldDepartment ++ " to " ++ department)))
                user.username (some department) with
            | some s2 => (okResponse "Complaint transferred successfully", s2)
            | none => (errorResponse 500 "Database error", s1)

/-! ## Admin update (`PUT /admin/complaints/:id`) -/

/-- The fields the admin update handler reads from `req.body`. -/
structure AdminUpdateBody where
  status : Option String
  priority : Option String
  assignedDepartment : Option String
  assignedTo : Option String
  escalated : Option Bool
  deadline : Option (Parsed Int)
  internalNote : Option String
  deriving DecidableEq, Repr

/-- The handler of `PUT /complaints/:id` of the admin router, behind
`router.use(authenticateToken, requireAdmin)`; `now` is the default `Date.now`
of a note's `addedAt` and `savedAt` the time of `complaint.save()`. -/
def adminUpdate (s : Store) (user : ReqUser) (id : Option ObjectId) (body : AdminUpdateBody)
    (now savedAt : Nat) : Response × Store :=
  if user.role != "admin" then (errorResponse 403 "Admin access required", s)
  else
    match id with
    | none => (errorResponse 500 "Failed to update complaint", s)
    | some id =>
      match findById s id with
      | none => (errorResponse 404 "Complaint not found", s)
      | some complaint =>
        let deadline : Option Int :=
          match body.deadline with
          | some d => if d.text != "" then d.value else complaint.deadline
          | none => complaint.deadline
        let saved : Complaint := timestamped complaint
          { complaint with
            status := orText body.status complaint.status,
            priority := orText body.priority complaint.priority,
            assignedDepartment := orText body.assignedDepartment complaint.assignedDepartment,
            assignedTo :=
              if truthy body.assignedTo then body.assignedTo.map trim else complaint.assignedTo,
            escalated := body.escalated.getD complaint.escalated,
            deadline := deadline,
            internalNotes :=
              match body.internalNote with
              | some note =>
                if note != "" then
                  complaint.internalNotes ++
                    [{ note := note, addedBy := user.username, addedAt := now }]
                else complaint.internalNotes
              | none => complaint.internalNotes }
          savedAt
        -- `complaint.save()` validates the paths the handler assigned
        if (truthy body.status && !(validStatuses.contains saved.status)) ||
            (truthy body.priority && !(validPriorities.contains saved.priority)) ||
            (truthy body.assignedDepartment &&
              !(validDepartments.contains saved.assignedDepartment)) ||
            (truthyParsed body.deadline && saved.deadline.isNone)
        then (errorResponse 500 "Failed to update complaint", s)
        else
          let s1 := saveComplaint s saved
          match saveStatusUpdate s1 saved._id saved.status
              (some (orText body.internalNote ("Updated by " ++ user.username)))
              user.username (some saved.assignedDepartment) with
          | some s2 => (okResponse "Complaint updated successfully", s2)
          | none => (errorResponse 500 "Failed to update complaint", s1)

/-! ## Requests and reachable stores -/

/-- A request to one of the six mutating routes. -/
inductive Request where
  | submit (user : Option ReqUser) (body : SubmitBody) (file : Option String) (now : Nat)
  | updateStatus (user : ReqUser) (id : Option ObjectId)
      (status comment assignedDepartment assignedTo : Option String) (savedAt : Nat)
  | transferDepartment (user : ReqUser) (id : Option ObjectId)
      (department comment : Option String) (savedAt : Nat)
  | adminUpdate (user : ReqUser) (id : Option ObjectId) (body : AdminUpdateBody)
      (now savedAt : Nat)
  | vote (user : ReqUser) (id : Option ObjectId) (voteType : Option String) (savedAt : Nat)
  | submitFeedback (user : ReqUser) (id : Option ObjectId) (rating : Option JsonValue)
      (comment : Option String) (now savedAt : Nat)

/-- The server handling one request. -/
def step (s : Store) : Request → Response × Store
  | .submit user body file now => submit s user body file now
  | .updateStatus user id status comment assignedDepartment assignedTo savedAt =>
    updateStatus s user id status comment assignedDepartment assignedTo savedAt
  | .transferDepartment user id department comment savedAt =>
    transferDepartment s user id department comment savedAt
  | .adminUpdate user id body now savedAt => adminUpdate s user id body now savedAt
  | .vote user id voteType savedAt => vote s user id voteType savedAt
  | .submitFeedback user id rating comment now savedAt =>
    submitFeedback s user id rating comment now savedAt

/-- The store after a sequence of requests handled one after the other. -/
def run (s : Store) : List Request → Store
  | [] => s
  | r :: rs => run (step s r).2 rs

/-- A response that reports success: a status code in the 2xx range. -/
def Response.ok (r : Response) : Bool := 200 ≤ r.status && r.status < 300

/-- The stores reachable from the empty store by requests that all succeeded. -/
inductive Reachable : Store → Prop where
  | empty : Reachable Store.empty
  | step (s : Store) (r : Request) : Reachable s → (step s r).1.ok = true →
      Reachable (step s r).2

/-! ## Paginated listings (`GET /`, `GET /admin/complaints`, `GET /admin/users`) -/

/-- The `pagination` object of a listing response. -/
structure Pagination where
  page : Nat
  limit : Nat
  total : Nat
  pages : Nat
  deriving DecidableEq, Repr

/-- The value of `Math.ceil(total / limit)` for a limit of at least 1. -/
def ceilDiv (total limit : Nat) : Nat := (total + limit - 1) / limit

/-- The tail the three paginated handlers share: `page` and `limit` default to 1
and 10, `skip = (page - 1) * limit`, the filtered and sorted documents go through
`.skip(skip).limit(parseInt(limit))`, and the response carries the documents kept
and `{ page, limit, total, pages: Math.ceil(total / limit) }`. It follows the
handlers for `page` and `limit` of at least 1. -/
def paginate {α : Type} (page limit : Option Nat) (matching : List α) : List α × Pagination :=
  let p := page.getD 1
  let l := limit.getD 10
  let skip := (p - 1) * l
  ((matching.drop skip).take l,
    { page := p, limit := l, total := matching.length, pages := ceilDiv matching.length l })

/-! ## Public listing (`GET /public`) -/

/-- A record of the public listing: `_id`, which a projection always keeps, and the
paths of `select('title description category location status createdAt')`. -/
structure PublicComplaint where
  _id : ObjectId
  title : String
  description : String
  category : String
  location : Location
  status : String
  createdAt : Nat
  deriving DecidableEq, Repr

/-- The projection of a complaint on the selected paths. -/
def publicView (c : Complaint) : PublicComplaint :=
  { _id := c._id, title := c.title, description := c.description, category := c.category,
    location := c.location, status := c.status, createdAt := c.createdAt }

/-- The value of `req.query.status` as the query parser of express hands it to the
handler: a text (`?status=resolved`); an object of query operators or an array
(`?status[$ne]=pending` is parsed into `{ $ne: 'pending' }`), which `find` runs as
a selector, given here by the statuses it selects; or a value that `find` cannot
run as a condition on the path, on which it throws. -/
inductive StatusQuery where
  | text (s : String)
  | selector (selects : String → Bool)
  | rejected

/-- The condition on `status` that `Complaint.find({ status })` runs: `status`
defaults to `pending` when the query does not carry it; `none` when `find`
throws. -/
def statusCondition : Option StatusQuery → Option (String → Bool)
  | none => some (fun st => st == "pending")
  | some (.text s) => some (fun st => st == s)
  | some (.selector selects) => some selects
  | some .rejected => none

/-- The handler of `GET /public`: the complaints that satisfy the condition of the
query are sorted by `createdAt`, newest first, and projected, and the response is
`{ complaints }` with status 200; an error thrown by `find` is answered 500. -/
def publicListing (s : Store) (status : Option StatusQuery) :
    Response × List PublicComplaint :=
  match statusCondition status with
  | none => (errorResponse 500 "Database error", [])
  | some selects =>
    ({ status := 200 },
      ((s.complaints.filter (fun c => selects c.status)).insertionSort
        (fun a b => b.createdAt ≤ a.createdAt)).map publicView)

/-! ## The auth gate (`middleware/auth.js`) -/

/-- A document of the User collection, password left out as `select('-password')`
does. -/
structure UserDoc where
  _id : ObjectId
  username : String
  role : String
  isActive : Bool
  deriving DecidableEq, Repr

/-- The property `id` of the payload `jwt.verify` returned, as `User.findById` takes
it: it is missing (`undefined` or `null`, for which the query finds nothing), it
is an ObjectId, or it is a value that cannot be cast to an ObjectId (for which
the query throws a CastError). -/
inductive Subject where
  | missing
  | objectId (id : ObjectId)
  | malformed
  deriving DecidableEq, Repr

/-- What `jwt.verify(token, config.JWT_SECRET)` does with a token: it returns the
payload, of which the middleware reads `id`, or it throws an error named
`JsonWebTokenError`, `TokenExpiredError`, or otherwise. -/
inductive VerifyOutcome where
  | decoded (id : Subject)
  | jsonWebTokenError
  | tokenExpiredError
  | otherError
  deriving DecidableEq, Repr

/-- What the middleware does with a request: it calls `next()` with `req.user` set,
or it sends a response. -/
inductive AuthResult where
  | next (user : ReqUser)
  | respond (response : Response)
  deriving DecidableEq, Repr

/-- The pieces `split(' ')` cuts a text into. -/
def splitOnSpace : List Char → List (List Char)
  | [] => [[]]
  | c :: cs =>
    match splitOnSpace cs with
    | [] => [[]]
    | w :: ws => if c = ' ' then [] :: w :: ws else (c :: w) :: ws

/-- The expression `authHeader && authHeader.split(' ')[1]`. -/
def bearerToken (authorization : Option String) : Option String :=
  match authorization with
  | none => none
  | some header =>
    if header == "" then some ""
    else ((splitOnSpace header.data).get? 1).map String.mk

/-- The middleware `authenticateToken`. The library function `jwt.verify` with the
server's secret is the parameter `verify`; `users` is the User collection and
`authorization` the request header. `User.findById` resolves to `null` for a
missing id and for an id of no user, which the middleware answers 403; it throws
for an id that is no ObjectId, and the `catch` answers an error of that name, as
any error other than the two JWT errors, with 500. -/
def authenticateToken (verify : String → VerifyOutcome) (users : List UserDoc)
    (authorization : Option String) : AuthResult :=
  match bearerToken authorization with
  | none => .respond (errorResponse 401 "Access token required")
  | some token =>
    if token == "" then .respond (errorResponse 401 "Access token required")
    else
      match verify token with
      | .decoded .missing => .respond (errorResponse 403 "User not found or inactive")
      | .decoded (.objectId id) =>
        match users.find? (fun u => u._id == id) with
        | none => .respond (errorResponse 403 "User not found or inactive")
        | some user =>
          if !user.isActive then .respond (errorResponse 403 "User not found or inactive")
          else .next { id := user._id, username := user.username, role := user.role }
      | .decoded .malformed => .respond (errorResponse 500 "Authentication error")
      | .jsonWebTokenError => .respond (errorResponse 403 "Invalid token")
      | .tokenExpiredError => .respond (errorResponse 403 "Token expired")
      | .otherError => .respond (errorResponse 500 "Authentication error")

/-! ## Default departments (`createDefaultDepartments`) -/

/-- A document of the Department collection. -/
structure DepartmentDoc where
  name : String
  description : String
  categories : List String
  isActive : Bool
  deriving DecidableEq, Repr

/-- An element of the array `defaultDepartments`. -/
structure DepartmentSeed where
  name : String
  description : String
  categories : List String
  deriving DecidableEq, Repr

/-- The array `defaultDepartments` of `createDefaultDepartments`. -/
def defaultDepartments : List DepartmentSeed :=
  [ { name := "Public Works Department (PWD)",
      description := "Handles road maintenance, potholes, and infrastructure",
      categories := ["pothole", "sidewalk", "roads"] },
    { name := "Sanitation Department",
      description := "Manages garbage collection and waste management",
      categories := ["garbage"] },
    { name := "Electricity Board",
      description := "Handles streetlights and electrical issues",
      categories := ["streetlight", "electricity"] },
    { name := "Water Department",
      description := "Manages water supply and drainage systems",
      categories := ["water", "drainage"] },
    { name := "Traffic Police",
      description := "Handles traffic signals and traffic management",
      categories := ["traffic"] },
    { name := "General Administration",
      description := "Handles miscellaneous complaints",
      categories := ["other"] } ]

/-- The validation `department.save()` runs against the Department schema: `name`
is required and every element of `categories` is of the category enum. -/
def departmentValid (seed : DepartmentSeed) : Bool :=
  trim seed.name != "" && seed.categories.all (fun c => validCategories.contains c)

/-- The `for` loop of `createDefaultDepartments`: a department whose name is found
is skipped, another is saved; a `save()` that throws leaves the loop, as the `try`
encloses it, with the documents saved so far. -/
def seedDepartments : List DepartmentSeed → List DepartmentDoc → List DepartmentDoc
  | [], docs => docs
  | dept :: rest, docs =>
    if docs.any (fun d => d.name == dept.name) then seedDepartments rest docs
    else if departmentValid dept then
      seedDepartments rest
        (docs ++ [{ name := trim dept.name, description := trim dept.description,
                    categories := dept.categories, isActive := true }])
    else docs

/-- The function `createDefaultDepartments`, run on a Department collection. -/
def createDefaultDepartments (departments : List DepartmentDoc) : List DepartmentDoc :=
  seedDepartments defaultDepartments departments

/-! ## Storage failures -/

/-- What the storage layer does with the two writes of a request: whether it
refuses `complaint.save()` and whether it refuses `statusUpdate.save()` (the
promise rejects and the handler's `catch` answers 500). -/
structure Storage where
  complaintWriteFails : Bool
  logWriteFails : Bool
  deriving DecidableEq, Repr

/-- A storage layer that performs every write. -/
def Storage.reliable : Storage := { complaintWriteFails := false, logWriteFails := false }

/-- The handler of `POST /` on a storage layer that may refuse a write. -/
def submitOn (st : Storage) (s : Store) (user : Option ReqUser) (body : SubmitBody) (file : Option String)
    (now : Nat) : Response × Store :=
  match body.title, body.description, body.category, body.latitude, body.longitude with
  | some title, some description, some category, some latitude, some longitude =>
    if title == "" || description == "" || category == "" || latitude.text == "" ||
        longitude.text == "" then
      (errorResponse 400 "Missing required fields", s)
    else
      let assignedDepartment := departmentMapping category
      let linked : Bool :=
        match user with
        | some u => u.role == "citizen" && !(truthy body.isAnonymous)
        | none => false
      let citizen : Option ObjectId :=
        match user with
        | some u => if linked then some u.id else none
        | none => none
      let anonymousInfo : Option AnonymousInfo :=
        if !linked && (body.isAnonymous == some "true" || user.isNone) then
          some { name := orNull body.citizen_name, email := orNull body.citizen_email,
                 phone := orNull body.citizen_phone }
        else none
      -- `complaint.save()` validates the new document against the schema
      match latitude.value, longitude.value with
      | some lat, some lng =>
        if trim title == "" || trim description == "" || !(validCategories.contains category)
        then (errorResponse 500 "Database error", s)
        else
          let complaint : Complaint :=
            { _id := ⟨s.nextId⟩, title := trim title, description := trim description,
              category := category,
              location := { latitude := lat, longitude := lng, address := body.address.map trim },
              image_url := file.map (fun name => "/uploads/" ++ name),
              status := "pending", citizen := citizen, anonymousInfo := anonymousInfo,
              assignedDepartment := assignedDepartment, assignedTo := none,
              priority := "medium", escalated := false, deadline := none,
              internalNotes := [], votes := [], voteCount := 0,
              feedback := { rating := none, comment := none, submittedBy := none,
                            submittedAt := none },
              createdAt := now, updatedAt := now }
          if st.complaintWriteFails then (errorResponse 500 "Database error", s)
          else
          let s1 : Store :=
            { s with complaints := s.complaints ++ [complaint], nextId := s.nextId + 1 }
          let updatedBy :=
            match user with
            | some u => u.username
            | none => "Anonymous"
          match (if st.logWriteFails then none
              else saveStatusUpdate s1 complaint._id "pending" (some "Complaint submitted")
              updatedBy none) with
          | some s2 =>
            ({ status := 201, id := some complaint._id,
               message := some "Complaint submitted successfully" }, s2)
          | none => (errorResponse 500 "Database error", s1)
      | _, _ => (errorResponse 500 "Database error", s)
  | _, _, _, _, _ => (errorResponse 400 "Missing required fields", s)

/-- The handler of `PUT /:id/status` on a storage layer that may refuse a write. -/
def updateStatusOn (st : Storage) (s : Store) (user : ReqUser) (id : Option ObjectId)
    (status comment assignedDepartment assignedTo : Option String) (savedAt : Nat) :
    Response × Store :=
  if user.role != "admin" then (errorResponse 403 "Access denied", s)
  else
    match status with
    | none => (errorResponse 400 "Status is required", s)
    | some status =>
      if status == "" then (errorResponse 400 "Status is required", s)
      else if !(validStatuses.contains status) then (errorResponse 400 "Invalid status", s)
      else
        match id with
        | none => (errorResponse 500 "Database error", s)
        | some id =>
          match findById s id with
          | none => (errorResponse 404 "Complaint not found", s)
          | some complaint =>
            let saved : Complaint := timestamped complaint
              { complaint with
                status := status,
                assignedDepartment := orText assignedDepartment complaint.assignedDepartment,
                assignedTo :=
                  if truthy assignedTo then assignedTo.map trim else complaint.assignedTo }
              savedAt
            -- `complaint.save()` validates the department the handler assigned
            if truthy assignedDepartment && !(validDepartments.contains saved.assignedDepartment)
            then (errorResponse 500 "Database error", s)
            else if st.complaintWriteFails then (errorResponse 500 "Database error", s)
            else
              let s1 := saveComplaint s saved
              match (if st.logWriteFails then none
                  else saveStatusUpdate s1 saved._id status (orNull comment) user.username
                  (some (orText assignedDepartment saved.assignedDepartment))) with
              | some s2 => (okResponse "Status updated successfully", s2)
              | none => (errorResponse 500 "Database error", s1)

/-- The handler of `PUT /:id/transfer` on a storage layer that may refuse a write. -/
def transferDepartmentOn (st : Storage) (s : Store) (user : ReqUser) (id : Option ObjectId)
    (department comment : Option String) (savedAt : Nat) : Response × Store :=
  if user.role != "admin" then (errorResponse 403 "Access denied", s)
  else
    match department with
    | none => (errorResponse 400 "Department is required", s)
    | some department =>
      if department == "" then (errorResponse 400 "Department is required", s)
      else if !(validDepartments.contains department) then
        (errorResponse 400 "Invalid department", s)
      else
        match id with
        | none => (errorResponse 500 "Database error", s)
        | some id =>
          match findById s id with
          | none => (errorResponse 404 "Complaint not found", s)
          | some complaint =>
            let oldDepartment := complaint.assignedDepartment
            let saved : Complaint :=
              timestamped complaint { complaint with assignedDepartment := department } savedAt
            if st.complaintWriteFails then (errorResponse 500 "Database error", s)
            else
            let s1 := saveComplaint s saved
            match (if st.logWriteFails then none
                else saveStatusUpdate s1 saved._id saved.status
                (some (orText comment
                  ("Transferred from " ++ oldDepartment ++ " to " ++ department)))
                user.username (some department)) with
            | some s2 => (okResponse "Complaint transferred successfully", s2)
            | none => (errorResponse 500 "Database error", s1)

/-- The handler of `PUT /complaints/:id` of the admin router on a storage layer that
may refuse a write. -/
def adminUpdateOn (st : Storage) (s : Store) (user : ReqUser) (id : Option ObjectId)
    (body : AdminUpdateBody) (now savedAt : Nat) : Response × Store :=
  if user.role != "admin" then (errorResponse 403 "Admin access required", s)
  else
    match id with
    | none => (errorResponse 500 "Failed to update complaint", s)
    | some id =>
      match findById s id with
      | none => (errorResponse 404 "Complaint not found", s)
      | some complaint =>
        let deadline : Option Int :=
          match body.deadline with
          | some d => if d.text != "" then d.value else complaint.deadline
          | none => complaint.deadline
        let saved : Complaint := timestamped complaint
          { complaint with
            status := orText body.status complaint.status,
            priority := orText body.priority complaint.priority,
            assignedDepartment := orText body.assignedDepartment complaint.assignedDepartment,
            assignedTo :=
              if truthy body.assignedTo then body.assignedTo.map trim else complaint.assignedTo,
            escalated := body.escalated.getD complaint.escalated,
            deadline := deadline,
            internalNotes :=
              match body.internalNote with
              | some note =>
                if note != "" then
                  complaint.internalNotes ++
                    [{ note := note, addedBy := user.username, addedAt := now }]
                else complaint.internalNotes
              | none => complaint.internalNotes }
          savedAt
        -- `complaint.save()` validates the paths the handler assigned
        if (truthy body.status && !(validStatuses.contains saved.status)) ||
            (truthy body.priority && !(validPriorities.contains saved.priority)) ||
            (truthy body.assignedDepartment &&
              !(validDepartments.contains saved.assignedDepartment)) ||
            (truthyParsed body.deadline && saved.deadline.isNone)
        then (errorResponse 500 "Failed to update complaint", s)
        else if st.complaintWriteFails then (errorResponse 500 "Failed to update complaint", s)
        else
          let s1 := saveComplaint s saved
          match (if st.logWriteFails then none
              else saveStatusUpdate s1 saved._id saved.status
              (some (orText body.internalNote ("Updated by " ++ user.username)))
              user.username (some saved.assignedDepartment)) with
          | some s2 => (okResponse "Complaint updated successfully", s2)
          | none => (errorResponse 500 "Failed to update complaint", s1)


/-! ## Properties of stores and complaints -/

/-- The relation between a stored complaint and the same complaint after a
request: the owner is the same, feedback once submitted is the same, and a vote
count that was the recount of the vote list still is. -/
structure Kept (c d : Complaint) : Prop where
  citizen : d.citizen = c.citizen
  feedback : c.feedback.submittedBy.isSome = true → d.feedback = c.feedback
  voteCount : c.voteCount = recount c.votes → d.voteCount = recount d.votes

/-- The status recorded by the StatusUpdate most recently appended for a complaint. -/
def lastLoggedStatus (s : Store) (id : ObjectId) : Option String :=
  ((s.statusUpdates.filter (fun u => u.complaint == id)).getLast?).map (fun u => u.status)

/-- The invariant behind the status log: every complaint has the status of its
last log entry, and every complaint id was drawn from the counter. -/
def Logged (s : Store) : Prop :=
  ∀ c ∈ s.complaints, lastLoggedStatus s c._id = some c.status ∧ c._id.value < s.nextId

/-- A request that appends one StatusUpdate for the complaint `id`: the log of `t`
is the log of `s` followed by one entry, which references `id` and records the
status the complaint has in `t`. -/
def AppendsOne (s t : Store) (id : ObjectId) : Prop :=
  ∃ u, t.statusUpdates = s.statusUpdates ++ [u] ∧ u.complaint = id ∧
    (findById t id).map (fun c => c.status) = some u.status

/-- The complaint an admin request (status change, transfer, admin update) is
addressed to; `none` for the other requests. -/
def Request.adminTarget : Request → Option ObjectId
  | .updateStatus _ id _ _ _ _ _ => id
  | .transferDepartment _ id _ _ _ => id
  | .adminUpdate _ id _ _ _ => id
  | _ => none

/-- The default department of a category in the words of the specification:
pothole and sidewalk go to roads, garbage to sanitation, streetlight and
electricity to electricity, water and drainage to water, traffic to traffic, other
to general. It is defined on the nine categories only. -/
def specDepartment (category : String) : Option String :=
  if category = "pothole" ∨ category = "sidewalk" then some "roads"
  else if category = "garbage" then some "sanitation"
  else if category = "streetlight" ∨ category = "electricity" then some "electricity"
  else if category = "water" ∨ category = "drainage" then some "water"
  else if category = "traffic" then some "traffic"
  else if category = "other" then some "general"
  else none

/-- A valid submission: title and description are present and not blank, the
category is one of the nine of the enum, latitude and longitude are present and
numeric. -/
def validSubmission (body : SubmitBody) : Bool :=
  match body.title, body.description, body.category, body.latitude, body.longitude with
  | some title, some description, some category, some latitude, some longitude =>
    trim title != "" && trim description != "" && validCategories.contains category &&
      latitude.text != "" && latitude.value.isSome &&
      longitude.text != "" && longitude.value.isSome
  | _, _, _, _, _ => false

/-- The identity attached to a request, if there is one, has a username, as the
User schema requires of every account. -/
def namedActor : Option ReqUser → Bool
  | some u => u.username != ""
  | none => true

/-- Every status of the complaints and of the log is one of the enum. -/
def StatusesValid (s : Store) : Prop :=
  (∀ c ∈ s.complaints, c.status ∈ validStatuses) ∧
  (∀ u ∈ s.statusUpdates, u.status ∈ validStatuses)

/-! ## Sample data -/

/-- A citizen account, as `authenticateToken` injects it. -/
def alice : ReqUser := { id := ⟨100⟩, username := "alice", role := "citizen" }

/-- A second citizen account. -/
def bob : ReqUser := { id := ⟨101⟩, username := "bob", role := "citizen" }

/-- The default admin account. -/
def officer : ReqUser := { id := ⟨1⟩, username := "admin", role := "admin" }

/-- A complete submission form. -/
def sampleForm : SubmitBody :=
  { title := some "Pothole", description := some "Deep hole", category := some "pothole",
    latitude := some { text := "12", value := some 12 },
    longitude := some { text := "77", value := some 77 },
    address := none, citizen_name := none, citizen_email := none, citizen_phone := none,
    isAnonymous := none }

/-- The complaint that `sampleForm` creates in the empty store when no identity is
attached to the request. -/
def sampleComplaint : Complaint :=
  { _id := ⟨0⟩, title := "Pothole", description := "Deep hole", category := "pothole",
    location := { latitude := 12, longitude := 77, address := none }, image_url := none,
    status := "pending", citizen := none,
    anonymousInfo := some { name := none, email := none, phone := none },
    assignedDepartment := "roads", assignedTo := none, priority := "medium",
    escalated := false, deadline := none, internalNotes := [], votes := [], voteCount := 0,
    feedback := { rating := none, comment := none, submittedBy := none, submittedAt := none },
    createdAt := 0, updatedAt := 0 }

/-- The store after `POST /` with `sampleForm` and no identity. -/
def submittedStore : Store := (submit Store.empty none sampleForm none 0).2

/-- The store after the admin then set that complaint to `resolved`, at time 1. -/
def resolvedStore : Store :=
  (updateStatus submittedStore officer (some ⟨0⟩) (some "resolved") none none none 1).2

/-- The store after alice upvoted the submitted complaint. -/
def votedStore : Store := (vote submittedStore alice (some ⟨0⟩) (some "upvote") 1).2

/-- The store after alice left feedback on the resolved anonymous complaint. -/
def feedbackStore : Store :=
  (submitFeedback resolvedStore alice (some ⟨0⟩) (some (.number 4)) (some "Fixed") 5 5).2

/-- The store in which the complaint of `sampleForm` is linked to alice and resolved. -/
def linkedStore : Store :=
  (updateStatus (submit Store.empty (some alice) sampleForm none 0).2 officer (some ⟨0⟩)
    (some "resolved") none none none 1).2

/-- The complaint stored in `linkedStore`. -/
def linkedComplaint : Complaint :=
  { sampleComplaint with
    status := "resolved", citizen := some alice.id, anonymousInfo := none, updatedAt := 1 }

/-- The form as the frontend sends it with the anonymous box left unchecked. -/
def falseFlagForm : SubmitBody := { sampleForm with isAnonymous := some "false" }

/-- The form with a latitude that is text but no number: `parseFloat` gives `NaN`. -/
def textLatitudeForm : SubmitBody :=
  { sampleForm with latitude := some { text := "abc", value := none } }

/-- The form with the coordinates of the point 0, 0, sent as the text `0`. -/
def zeroForm : SubmitBody :=
  { sampleForm with
    latitude := some { text := "0", value := some 0 },
    longitude := some { text := "0", value := some 0 } }

/-- The form with a title that is a single no-break space (U+00A0). -/
def blankTitleForm : SubmitBody := { sampleForm with title := some "\u00A0" }

/-- A form whose category is not one of the enum. -/
def noiseForm : SubmitBody := { sampleForm with category := some "noise" }

/-- The rating `"abc"`: a text that denotes no number. -/
def textRating : JsonValue := .text { text := "abc", value := none }

/-- The query `?status[$ne]=pending`, which the query parser turns into the operator
object `{ $ne: 'pending' }`. -/
def notPending : StatusQuery := .selector (fun st => st != "pending")

/-- The store after two submissions, at the times 0 and 3, the first of which the
admin then resolved. -/
def mixedStore : Store :=
  (updateStatus (submit submittedStore none sampleForm none 3).2 officer (some ⟨0⟩)
    (some "resolved") none none none 4).2

/-- An admin update request that supplies nothing. -/
def emptyUpdate : AdminUpdateBody :=
  { status := none, priority := none, assignedDepartment := none, assignedTo := none,
    escalated := none, deadline := none, internalNote := none }

/-- The form with the anonymous box checked. -/
def anonymousFlagForm : SubmitBody := { sampleForm with isAnonymous := some "true" }

/-- A User collection: alice is active, bob is blocked. -/
def sampleUsers : List UserDoc :=
  [ { _id := ⟨100⟩, username := "alice", role := "citizen", isActive := true },
    { _id := ⟨101⟩, username := "bob", role := "citizen", isActive := false } ]

/-- A token verification: `good` carries alice's id, `blocked` carries bob's, `gone`
the id of an account that was deleted, `bare` is signed but carries no id, `old`
has expired, and every other token is rejected. -/
def sampleVerify (token : String) : VerifyOutcome :=
  if token == "good" then .decoded (.objectId ⟨100⟩)
  else if token == "blocked" then .decoded (.objectId ⟨101⟩)
  else if token == "gone" then .decoded (.objectId ⟨555⟩)
  else if token == "bare" then .decoded .missing
  else if token == "old" then .tokenExpiredError
  else .jsonWebTokenError

/-! ## Lookup and save lemmas -/

theorem findById_id {s : Store} {id : ObjectId} {c : Complaint} (h : findById s id = some c) :
    c._id = id := by
  unfold findById at h
  have := List.find?_some h
  simpa using this

theorem findById_mem {s : Store} {id : ObjectId} {c : Complaint} (h : findById s id = some c) :
    c ∈ s.complaints := by
  unfold findById at h
  exact List.mem_of_find?_eq_some h

theorem find_map_replace (l : List Complaint) (c : Complaint) (id : ObjectId) :
    (l.map (fun d => if d._id == c._id then c else d)).find? (fun d => d._id == id) =
      if c._id = id then (l.find? (fun d => d._id == id)).map (fun _ => c)
      else l.find? (fun d => d._id == id) := by
  induction l with
  | nil => simp
  | cons d l ih =>
    simp only [List.map_cons, List.find?_cons]
    rw [ih]
    by_cases hd : d._id = c._id
    · have e1 : (d._id == c._id) = true := by simpa using hd
      by_cases hc : c._id = id
      · have e2 : (c._id == id) = true := by simpa using hc
        have e3 : (d._id == id) = true := by simpa using hd.trans hc
        simp [e1, e2, e3, hc]
      · have e2 : (c._id == id) = false := by simpa using hc
        have e3 : (d._id == id) = false := by simpa [hd] using hc
        simp [e1, e2, e3, hc]
    · have e1 : (d._id == c._id) = false := by simpa using hd
      by_cases hd2 : d._id = id
      · have e3 : (d._id == id) = true := by simpa using hd2
        have hc : ¬ c._id = id := fun h => hd (hd2.trans h.symm)
        simp [e1, e3, hc]
      · have e3 : (d._id == id) = false := by simpa using hd2
        simp [e1, e3]

theorem findById_saveComplaint (s : Store) (c : Complaint) (id : ObjectId) :
    findById (saveComplaint s c) id =
      if c._id = id then (findById s id).map (fun _ => c) else findById s id := by
  unfold findById saveComplaint
  exact find_map_replace s.complaints c id

theorem saveComplaint_ids (s : Store) (c : Complaint) :
    (saveComplaint s c).complaints.map (fun d => d._id) = s.complaints.map (fun d => d._id) := by
  unfold saveComplaint
  rw [List.map_map]
  apply List.map_congr_left
  intro d _
  by_cases h : d._id = c._id
  · simp [h]
  · simp [h]

theorem saveStatusUpdate_eq {s s2 : Store} {cid : ObjectId} {st : String} {cm : Option String}
    {by_ : String} {dp : Option String} (h : saveStatusUpdate s cid st cm by_ dp = some s2) :
    s2 = { complaints := s.complaints,
           statusUpdates := s.statusUpdates ++
             [{ _id := ⟨s.nextId⟩, complaint := cid, status := st, comment := cm.map trim,
                updatedBy := by_, department := dp }],
           nextId := s.nextId + 1 } := by
  unfold saveStatusUpdate at h
  split at h
  · simpa using h.symm
  · simp at h

theorem findById_saveStatusUpdate {s s2 : Store} {cid : ObjectId} {st : String}
    {cm : Option String} {by_ : String} {dp : Option String}
    (h : saveStatusUpdate s cid st cm by_ dp = some s2) (id : ObjectId) :
    findById s2 id = findById s id := by
  rw [saveStatusUpdate_eq h]; rfl

theorem Kept.refl (c : Complaint) : Kept c c := ⟨rfl, fun _ => rfl, fun h => h⟩

theorem Kept.trans {a b c : Complaint} (h1 : Kept a b) (h2 : Kept b c) : Kept a c := by
  refine ⟨h2.citizen.trans h1.citizen, fun h => ?_, fun h => h2.voteCount (h1.voteCount h)⟩
  have hb := h1.feedback h
  rw [← hb]
  exact h2.feedback (by rw [hb]; exact h)

theorem kept_save {s : Store} {id0 : ObjectId} {c0 saved : Complaint}
    (h0 : findById s id0 = some c0) (hid : saved._id = c0._id) (hk : Kept c0 saved)
    {id : ObjectId} {c : Complaint} (h : findById s id = some c) :
    ∃ d, findById (saveComplaint s saved) id = some d ∧ Kept c d := by
  rw [findById_saveComplaint]
  by_cases e : saved._id = id
  · have e0 : id0 = id := by rw [← findById_id h0, ← hid, e]
    subst e0
    rw [h0] at h
    cases h
    exact ⟨saved, by simp [e, h0], hk⟩
  · exact ⟨c, by simp [e, h], Kept.refl c⟩

theorem vote_kept (s : Store) (user : ReqUser) (tid : Option ObjectId) (vt : Option String)
    (savedAt : Nat)
    {id : ObjectId} {c : Complaint} (h : findById s id = some c) :
    ∃ d, findById (vote s user tid vt savedAt).2 id = some d ∧ Kept c d := by
  unfold vote
  repeat' (first | split | dsimp only)
  all_goals first
    | exact ⟨c, h, Kept.refl c⟩
    | (have h0 := ‹findById s _ = some _›
       refine kept_save h0 ?_ ?_ h
       · rfl
       · exact ⟨rfl, fun _ => rfl, fun _ => rfl⟩)

theorem submitFeedback_kept (s : Store) (user : ReqUser) (tid : Option ObjectId)
    (rating : Option JsonValue) (comment : Option String) (now savedAt : Nat)
    {id : ObjectId} {c : Complaint} (h : findById s id = some c) :
    ∃ d, findById (submitFeedback s user tid rating comment now savedAt).2 id = some d ∧ Kept c d := by
  unfold submitFeedback
  repeat' (first | split | dsimp only)
  all_goals first
    | exact ⟨c, h, Kept.refl c⟩
    | (have h0 := ‹findById s _ = some _›
       have hf := ‹¬ feedbackExists _ = true›
       refine kept_save h0 ?_ ?_ h
       · rfl
       · exact ⟨rfl, fun hs => absurd hs hf, fun hv => hv⟩)

theorem kept_save_log {s s2 : Store} {id0 : ObjectId} {c0 saved : Complaint}
    {st : String} {cm : Option String} {by_ : String} {dp : Option String}
    (h0 : findById s id0 = some c0) (hid : saved._id = c0._id) (hk : Kept c0 saved)
    (hs : saveStatusUpdate (saveComplaint s saved) saved._id st cm by_ dp = some s2)
    {id : ObjectId} {c : Complaint} (h : findById s id = some c) :
    ∃ d, findById s2 id = some d ∧ Kept c d := by
  rw [findById_saveStatusUpdate hs]
  exact kept_save h0 hid hk h

theorem updateStatus_kept (s : Store) (user : ReqUser) (tid : Option ObjectId)
    (status comment assignedDepartment assignedTo : Option String) (savedAt : Nat)
    {id : ObjectId} {c : Complaint} (h : findById s id = some c) :
    ∃ d, findById (updateStatus s user tid status comment assignedDepartment assignedTo savedAt).2 id
      = some d ∧ Kept c d := by
  unfold updateStatus
  repeat' (first | split | dsimp only)
  all_goals first
    | exact ⟨c, h, Kept.refl c⟩
    | (have h0 := ‹findById s _ = some _›
       have hs := ‹saveStatusUpdate _ _ _ _ _ _ = some _›
       refine kept_save_log h0 ?_ ?_ hs h
       · rfl
       · exact ⟨rfl, fun _ => rfl, fun hv => hv⟩)
    | (have h0 := ‹findById s _ = some _›
       refine kept_save h0 ?_ ?_ h
       · rfl
       · exact ⟨rfl, fun _ => rfl, fun hv => hv⟩)

theorem transferDepartment_kept (s : Store) (user : ReqUser) (tid : Option ObjectId)
    (department comment : Option String) (savedAt : Nat)
    {id : ObjectId} {c : Complaint} (h : findById s id = some c) :
    ∃ d, findById (transferDepartment s user tid department comment savedAt).2 id = some d ∧ Kept c d := by
  unfold transferDepartment
  repeat' (first | split | dsimp only)
  all_goals first
    | exact ⟨c, h, Kept.refl c⟩
    | (have h0 := ‹findById s _ = some _›
       have hs := ‹saveStatusUpdate _ _ _ _ _ _ = some _›
       refine kept_save_log h0 ?_ ?_ hs h
       · rfl
       · exact ⟨rfl, fun _ => rfl, fun hv => hv⟩)
    | (have h0 := ‹findById s _ = some _›
       refine kept_save h0 ?_ ?_ h
       · rfl
       · exact ⟨rfl, fun _ => rfl, fun hv => hv⟩)

theorem adminUpdate_kept (s : Store) (user : ReqUser) (tid : Option ObjectId)
    (body : AdminUpdateBody) (now savedAt : Nat)
    {id : ObjectId} {c : Complaint} (h : findById s id = some c) :
    ∃ d, findById (adminUpdate s user tid body now savedAt).2 id = some d ∧ Kept c d := by
  unfold adminUpdate
  repeat' (first | split | dsimp only)
  all_goals first
    | exact ⟨c, h, Kept.refl c⟩
    | (have h0 := ‹findById s _ = some _›
       have hs := ‹saveStatusUpdate _ _ _ _ _ _ = some _›
       refine kept_save_log h0 ?_ ?_ hs h
       · rfl
       · exact ⟨rfl, fun _ => rfl, fun hv => hv⟩)
    | (have h0 := ‹findById s _ = some _›
       refine kept_save h0 ?_ ?_ h
       · rfl
       · exact ⟨rfl, fun _ => rfl, fun hv => hv⟩)

theorem findById_append {s : Store} {id : ObjectId} {c : Complaint} (h : findById s id = some c)
    (extra : List Complaint) (log : List StatusUpdate) (n : Nat) :
    findById { complaints := s.complaints ++ extra, statusUpdates := log, nextId := n } id
      = some c := by
  unfold findById at h ⊢
  simp [List.find?_append, h]

theorem submit_kept (s : Store) (user : Option ReqUser) (body : SubmitBody)
    (file : Option String) (now : Nat)
    {id : ObjectId} {c : Complaint} (h : findById s id = some c) :
    ∃ d, findById (submit s user body file now).2 id = some d ∧ Kept c d := by
  unfold submit
  repeat' (first | split | dsimp only)
  all_goals first
    | exact ⟨c, h, Kept.refl c⟩
    | (have hs := ‹saveStatusUpdate _ _ _ _ _ _ = some _›
       refine ⟨c, ?_, Kept.refl c⟩
       rw [findById_saveStatusUpdate hs]
       exact findById_append h _ _ _)
    | exact ⟨c, findById_append h _ _ _, Kept.refl c⟩

theorem step_kept (s : Store) (r : Request) {id : ObjectId} {c : Complaint}
    (h : findById s id = some c) : ∃ d, findById (step s r).2 id = some d ∧ Kept c d := by
  cases r with
  | submit user body file now => exact submit_kept s user body file now h
  | updateStatus user tid a b c d t => exact updateStatus_kept s user tid a b c d t h
  | transferDepartment user tid a b t => exact transferDepartment_kept s user tid a b t h
  | adminUpdate user tid body now t => exact adminUpdate_kept s user tid body now t h
  | vote user tid vt t => exact vote_kept s user tid vt t h
  | submitFeedback user tid rating comment now t =>
    exact submitFeedback_kept s user tid rating comment now t h

theorem run_kept (rs : List Request) : ∀ (s : Store) {id : ObjectId} {c : Complaint},
    findById s id = some c → ∃ d, findById (run s rs) id = some d ∧ Kept c d := by
  induction rs with
  | nil => intro s id c h; exact ⟨c, h, Kept.refl c⟩
  | cons r rs ih =>
    intro s id c h
    obtain ⟨d, hd, k1⟩ := step_kept s r h
    obtain ⟨e, he, k2⟩ := ih (step s r).2 hd
    exact ⟨e, he, k1.trans k2⟩

theorem lastLogged_append_same (cs : List Complaint) (log : List StatusUpdate) (n : Nat)
    (u : StatusUpdate) :
    lastLoggedStatus { complaints := cs, statusUpdates := log ++ [u], nextId := n } u.complaint
      = some u.status := by
  simp [lastLoggedStatus, List.filter_append, List.getLast?_append]

theorem logged_save {s : Store} {id0 : ObjectId} {c0 saved : Complaint} (hinv : Logged s)
    (h0 : findById s id0 = some c0) (hid : saved._id = c0._id) (hst : saved.status = c0.status) :
    Logged (saveComplaint s saved) := by
  intro d hd
  simp only [saveComplaint, List.mem_map] at hd
  obtain ⟨e, he, rfl⟩ := hd
  have hc0 := hinv c0 (findById_mem h0)
  by_cases hx : e._id = saved._id
  · simp only [hx, beq_self_eq_true, if_true]
    rw [hst, hid]
    exact ⟨hc0.1, hc0.2⟩
  · have : (e._id == saved._id) = false := by simpa using hx
    simp only [this, Bool.false_eq_true, if_false]
    exact hinv e he

theorem logged_save_log {s s2 : Store} {id0 : ObjectId} {c0 saved : Complaint}
    {cm : Option String} {by_ : String} {dp : Option String} (hinv : Logged s)
    (h0 : findById s id0 = some c0) (hid : saved._id = c0._id)
    (hs : saveStatusUpdate (saveComplaint s saved) saved._id saved.status cm by_ dp = some s2) :
    Logged s2 := by
  rw [saveStatusUpdate_eq hs]
  intro d hd
  simp only [saveComplaint, List.mem_map] at hd
  obtain ⟨e, he, rfl⟩ := hd
  have hc0 := hinv c0 (findById_mem h0)
  by_cases hx : e._id = saved._id
  · simp only [hx, beq_self_eq_true, if_true]
    refine ⟨?_, ?_⟩
    · exact lastLogged_append_same _ _ _
        { _id := ⟨(saveComplaint s saved).nextId⟩, complaint := saved._id,
          status := saved.status, comment := cm.map trim, updatedBy := by_, department := dp }
    · rw [hid]; exact Nat.lt_succ_of_lt hc0.2
  · have hf : (e._id == saved._id) = false := by simpa using hx
    simp only [hf, Bool.false_eq_true, if_false]
    refine ⟨?_, Nat.lt_succ_of_lt (hinv e he).2⟩
    have hne : ¬ saved._id = e._id := fun h => hx h.symm
    have hl := (hinv e he).1
    simp only [lastLoggedStatus] at hl ⊢
    simpa [saveComplaint, List.filter_append, hne] using hl

theorem lastLogged_snoc {s t : Store} {u : StatusUpdate}
    (h : t.statusUpdates = s.statusUpdates ++ [u]) (id : ObjectId) :
    lastLoggedStatus t id = if u.complaint = id then some u.status else lastLoggedStatus s id := by
  unfold lastLoggedStatus
  rw [h, List.filter_append]
  by_cases e : u.complaint = id
  · simp [e]
  · simp [e]

theorem logged_submit {s s2 : Store} {cnew : Complaint} {cm : Option String} {by_ : String}
    {dp : Option String} (hinv : Logged s) (hid : cnew._id = ⟨s.nextId⟩)
    (hs : saveStatusUpdate
      { complaints := s.complaints ++ [cnew], statusUpdates := s.statusUpdates,
        nextId := s.nextId + 1 } cnew._id cnew.status cm by_ dp = some s2) :
    Logged s2 := by
  have hlog : s2.statusUpdates = s.statusUpdates ++
      [{ _id := ⟨s.nextId + 1⟩, complaint := cnew._id, status := cnew.status,
         comment := cm.map trim, updatedBy := by_, department := dp }] := by
    rw [saveStatusUpdate_eq hs]
  have hcs : s2.complaints = s.complaints ++ [cnew] := by rw [saveStatusUpdate_eq hs]
  have hn : s2.nextId = s.nextId + 1 + 1 := by rw [saveStatusUpdate_eq hs]
  intro d hd
  rw [hcs, List.mem_append, List.mem_singleton] at hd
  rw [lastLogged_snoc hlog, hn]
  rcases hd with hd | rfl
  · have hlt := (hinv d hd).2
    have hne : ¬ cnew._id = d._id := by
      intro h
      rw [← h, hid] at hlt
      exact Nat.lt_irrefl _ hlt
    simp only [hne, if_false]
    exact ⟨(hinv d hd).1, by omega⟩
  · simp only [if_true]
    exact ⟨trivial, by rw [hid]; show s.nextId < s.nextId + 1 + 1; omega⟩

theorem vote_logged (s : Store) (user : ReqUser) (tid : Option ObjectId) (vt : Option String)
    (savedAt : Nat)
    (hinv : Logged s) : (vote s user tid vt savedAt).1.ok = true → Logged (vote s user tid vt savedAt).2 := by
  unfold vote
  repeat' (first | split | dsimp only)
  all_goals first
    | (intro _; exact hinv)
    | (intro _
       have h0 := ‹findById s _ = some _›
       refine logged_save hinv h0 ?_ ?_ <;> rfl)

theorem submitFeedback_logged (s : Store) (user : ReqUser) (tid : Option ObjectId)
    (rating : Option JsonValue) (comment : Option String) (now savedAt : Nat) (hinv : Logged s) :
    (submitFeedback s user tid rating comment now savedAt).1.ok = true →
      Logged (submitFeedback s user tid rating comment now savedAt).2 := by
  unfold submitFeedback
  repeat' (first | split | dsimp only)
  all_goals first
    | (intro _; exact hinv)
    | (intro _
       have h0 := ‹findById s _ = some _›
       refine logged_save hinv h0 ?_ ?_ <;> rfl)

theorem updateStatus_logged (s : Store) (user : ReqUser) (tid : Option ObjectId)
    (status comment assignedDepartment assignedTo : Option String) (savedAt : Nat)
    (hinv : Logged s) :
    (updateStatus s user tid status comment assignedDepartment assignedTo savedAt).1.ok = true →
      Logged (updateStatus s user tid status comment assignedDepartment assignedTo savedAt).2 := by
  unfold updateStatus
  repeat' (first | split | dsimp only)
  all_goals first
    | (intro _; exact hinv)
    | (intro _
       have h0 := ‹findById s _ = some _›
       have hs := ‹saveStatusUpdate _ _ _ _ _ _ = some _›
       refine logged_save_log hinv h0 ?_ hs
       rfl)
    | (intro hok; simp [errorResponse, Response.ok] at hok)

theorem transferDepartment_logged (s : Store) (user : ReqUser) (tid : Option ObjectId)
    (department comment : Option String) (savedAt : Nat) (hinv : Logged s) :
    (transferDepartment s user tid department comment savedAt).1.ok = true →
      Logged (transferDepartment s user tid department comment savedAt).2 := by
  unfold transferDepartment
  repeat' (first | split | dsimp only)
  all_goals first
    | (intro _; exact hinv)
    | (intro _
       have h0 := ‹findById s _ = some _›
       have hs := ‹saveStatusUpdate _ _ _ _ _ _ = some _›
       refine logged_save_log hinv h0 ?_ hs
       rfl)
    | (intro hok; simp [errorResponse, Response.ok] at hok)

theorem adminUpdate_logged (s : Store) (user : ReqUser) (tid : Option ObjectId)
    (body : AdminUpdateBody) (now savedAt : Nat) (hinv : Logged s) :
    (adminUpdate s user tid body now savedAt).1.ok = true →
      Logged (adminUpdate s user tid body now savedAt).2 := by
  unfold adminUpdate
  repeat' (first | split | dsimp only)
  all_goals first
    | (intro _; exact hinv)
    | (intro _
       have h0 := ‹findById s _ = some _›
       have hs := ‹saveStatusUpdate _ _ _ _ _ _ = some _›
       refine logged_save_log hinv h0 ?_ hs
       rfl)
    | (intro hok; simp [errorResponse, Response.ok] at hok)

theorem submit_logged (s : Store) (user : Option ReqUser) (body : SubmitBody)
    (file : Option String) (now : Nat) (hinv : Logged s) :
    (submit s user body file now).1.ok = true → Logged (submit s user body file now).2 := by
  unfold submit
  repeat' (first | split | dsimp only)
  all_goals first
    | (intro _; exact hinv)
    | (intro _
       have hs := ‹saveStatusUpdate _ _ _ _ _ _ = some _›
       refine logged_submit hinv ?_ hs
       rfl)
    | (intro hok; simp [errorResponse, Response.ok] at hok)

theorem step_logged (s : Store) (r : Request) (hinv : Logged s) (hok : (step s r).1.ok = true) :
    Logged (step s r).2 := by
  cases r with
  | submit user body file now => exact submit_logged s user body file now hinv hok
  | updateStatus user tid a b c d t => exact updateStatus_logged s user tid a b c d t hinv hok
  | transferDepartment user tid a b t => exact transferDepartment_logged s user tid a b t hinv hok
  | adminUpdate user tid body now t => exact adminUpdate_logged s user tid body now t hinv hok
  | vote user tid vt t => exact vote_logged s user tid vt t hinv hok
  | submitFeedback user tid rating comment now t =>
    exact submitFeedback_logged s user tid rating comment now t hinv hok

theorem reachable_logged {s : Store} (h : Reachable s) : Logged s := by
  induction h with
  | empty => intro c hc; simp [Store.empty] at hc
  | step s r _ hok ih => exact step_logged s r ih hok

/-! ## The status log -/

theorem appends_save_log {s s2 : Store} {id : ObjectId} {c0 saved : Complaint}
    {cm : Option String} {by_ : String} {dp : Option String}
    (h0 : findById s id = some c0) (hid : saved._id = c0._id)
    (hs : saveStatusUpdate (saveComplaint s saved) saved._id saved.status cm by_ dp = some s2) :
    AppendsOne s s2 id := by
  have hsid : saved._id = id := hid.trans (findById_id h0)
  refine ⟨{ _id := ⟨s.nextId⟩, complaint := saved._id, status := saved.status,
            comment := cm.map trim, updatedBy := by_, department := dp }, ?_, hsid, ?_⟩
  · rw [saveStatusUpdate_eq hs]; rfl
  · rw [findById_saveStatusUpdate hs, findById_saveComplaint]
    simp [hsid, h0]

theorem updateStatus_appends (s : Store) (user : ReqUser) (id : ObjectId)
    (status comment assignedDepartment assignedTo : Option String) (savedAt : Nat) :
    (updateStatus s user (some id) status comment assignedDepartment assignedTo savedAt).1.ok = true →
      AppendsOne s (updateStatus s user (some id) status comment assignedDepartment assignedTo savedAt).2
        id := by
  unfold updateStatus
  repeat' (first | dsimp only | split)
  all_goals first
    | (intro hok; simp [errorResponse, Response.ok] at hok; done)
    | (intro _
       have h0 := ‹findById s _ = some _›
       have hs := ‹saveStatusUpdate _ _ _ _ _ _ = some _›
       refine appends_save_log h0 ?_ hs
       rfl)

theorem transferDepartment_appends (s : Store) (user : ReqUser) (id : ObjectId)
    (department comment : Option String) (savedAt : Nat) :
    (transferDepartment s user (some id) department comment savedAt).1.ok = true →
      AppendsOne s (transferDepartment s user (some id) department comment savedAt).2 id := by
  unfold transferDepartment
  repeat' (first | dsimp only | split)
  all_goals first
    | (intro hok; simp [errorResponse, Response.ok] at hok; done)
    | (intro _
       have h0 := ‹findById s _ = some _›
       have hs := ‹saveStatusUpdate _ _ _ _ _ _ = some _›
       refine appends_save_log h0 ?_ hs
       rfl)

theorem adminUpdate_appends (s : Store) (user : ReqUser) (id : ObjectId)
    (body : AdminUpdateBody) (now savedAt : Nat) :
    (adminUpdate s user (some id) body now savedAt).1.ok = true →
      AppendsOne s (adminUpdate s user (some id) body now savedAt).2 id := by
  unfold adminUpdate
  repeat' (first | dsimp only | split)
  all_goals first
    | (intro hok; simp [errorResponse, Response.ok] at hok; done)
    | (intro _
       have h0 := ‹findById s _ = some _›
       have hs := ‹saveStatusUpdate _ _ _ _ _ _ = some _›
       refine appends_save_log h0 ?_ hs
       rfl)

/-! ## Voting and feedback lemmas -/

/-- The predicate of the `find` in the vote handler holds of no vote: it compares a
string with an ObjectId. -/
theorem isVoteOf_false (user : ReqUser) (v : Vote) : isVoteOf user v = false := rfl

/-- So `existingVote` is `undefined` on every vote list. -/
theorem vote_find_none (user : ReqUser) (votes : List Vote) :
    votes.find? (isVoteOf user) = none := by
  induction votes with
  | nil => rfl
  | cons v vs ih => simp [List.find?, isVoteOf_false, ih]

theorem notOriginalComplainant_false {c : Complaint} {user : ReqUser}
    (h : notOriginalComplainant c user = false) : c.citizen = none := by
  unfold notOriginalComplainant at h
  cases hc : c.citizen with
  | none => rfl
  | some o => rw [hc] at h; simp [strictEquals] at h

theorem notOriginalComplainant_of_citizen {c : Complaint} {user : ReqUser} {o : ObjectId}
    (h : c.citizen = some o) : notOriginalComplainant c user = true := by
  unfold notOriginalComplainant
  rw [h]
  rfl

theorem submitFeedback_ok (s : Store) (user : ReqUser) (id : ObjectId) (rating : Option JsonValue)
    (comment : Option String) (now savedAt : Nat) :
    (submitFeedback s user (some id) rating comment now savedAt).1.ok = true →
    ∃ c stored, findById s id = some c ∧ c.citizen = none ∧
      storedRating rating = some stored ∧
      (submitFeedback s user (some id) rating comment now savedAt).2 =
        saveComplaint s (timestamped c
          { c with
            feedback := { rating := stored, comment := comment, submittedBy := some user.id,
                          submittedAt := some now } } savedAt) := by
  unfold submitFeedback
  repeat' (first | dsimp only | split)
  all_goals first
    | (intro hok; simp [errorResponse, Response.ok] at hok; done)
    | (intro _
       have h0 := ‹findById s _ = some _›
       have hn := ‹¬ notOriginalComplainant _ _ = true›
       have hr := ‹storedRating rating = some _›
       exact ⟨_, _, h0, notOriginalComplainant_false (by simpa using hn), hr, rfl⟩)

theorem submitFeedback_error (s : Store) (user : ReqUser) (id : Option ObjectId)
    (rating : Option JsonValue) (comment : Option String) (now savedAt : Nat) :
    (submitFeedback s user id rating comment now savedAt).1.ok = false →
      (submitFeedback s user id rating comment now savedAt).2 = s := by
  unfold submitFeedback
  repeat' (first | dsimp only | split)
  all_goals first
    | (intro _; rfl)
    | (intro hok; simp [okResponse, Response.ok] at hok)

theorem submitFeedback_unsaved (s : Store) (user : ReqUser) (id : Option ObjectId)
    (rating : Option JsonValue) (comment : Option String) (now savedAt : Nat)
    (h : storedRating rating = none) :
    (submitFeedback s user id rating comment now savedAt).1.ok = false := by
  unfold submitFeedback
  repeat' (first | dsimp only | split)
  all_goals first
    | (simp [errorResponse, Response.ok]; done)
    | (rename_i hs; rw [h] at hs; cases hs)

theorem submitFeedback_rejects (s : Store) (user : ReqUser) (id : ObjectId)
    (rating : Option JsonValue) (comment : Option String) (now savedAt : Nat) (d : Complaint)
    (hd : findById s id = some d)
    (h : ratingRejected rating = true ∨ d.status ≠ "resolved" ∨
      notOriginalComplainant d user = true ∨ feedbackExists d = true) :
    (submitFeedback s user (some id) rating comment now savedAt).1.ok = false ∧
    (submitFeedback s user (some id) rating comment now savedAt).2 = s := by
  unfold submitFeedback
  by_cases h1 : ratingRejected rating = true
  · simp [h1, errorResponse, Response.ok]
  · by_cases h2 : d.status = "resolved"
    · by_cases h3 : notOriginalComplainant d user = true
      · simp [h1, hd, h2, h3, errorResponse, Response.ok]
      · have h4 : feedbackExists d = true := by
          rcases h with h | h | h | h
          · exact absurd h h1
          · exact absurd h2 h
          · exact absurd h h3
          · exact h
        simp [h1, hd, h2, h3, h4, errorResponse, Response.ok]
    · simp [h1, hd, h2, errorResponse, Response.ok]

theorem submitFeedback_already (s : Store) (user : ReqUser) (id : ObjectId)
    (rating : Option JsonValue) (comment : Option String) (now savedAt : Nat) (d : Complaint)
    (hd : findById s id = some d) (hr : ratingRejected rating = false)
    (hs : d.status = "resolved") (hc : d.citizen = none) (hf : feedbackExists d = true) :
    (submitFeedback s user (some id) rating comment now savedAt).1 =
      errorResponse 400 "Feedback already submitted for this complaint" := by
  unfold submitFeedback
  simp [hr, hd, hs, hf, notOriginalComplainant, hc]

/-! ## Claims -/

/-- Claim C1: in every store reachable from the empty store by requests that all
succeeded (submit, updateStatus, transferDepartment, adminUpdate, vote,
submitFeedback), the status of each complaint is the status recorded by the
StatusUpdate most recently appended for it. -/
theorem status_is_last_logged (s : Store) (h : Reachable s) (c : Complaint)
    (hc : c ∈ s.complaints) : lastLoggedStatus s c._id = some c.status :=
  (reachable_logged h c hc).1

/-- Witness of C1: the store after an anonymous submission and a status change to
`resolved`. -/
theorem status_is_last_logged_witness :
    Reachable resolvedStore ∧
    { sampleComplaint with status := "resolved", updatedAt := 1 } ∈ resolvedStore.complaints ∧
    lastLoggedStatus resolvedStore ⟨0⟩ = some "resolved" :=
  ⟨Reachable.step _ (.updateStatus officer (some ⟨0⟩) (some "resolved") none none none 1)
      (Reachable.step _ (.submit none sampleForm none 0) Reachable.empty (by decide))
      (by decide),
    by decide,
    status_is_last_logged resolvedStore
      (Reachable.step _ (.updateStatus officer (some ⟨0⟩) (some "resolved") none none none 1)
        (Reachable.step _ (.submit none sampleForm none 0) Reachable.empty (by decide))
        (by decide))
      { sampleComplaint with status := "resolved", updatedAt := 1 } (by decide)⟩

/-- Claim C2: for an existing complaint, each successful updateStatus,
transferDepartment and adminUpdate request addressed to it appends exactly one
StatusUpdate, which references that complaint and records the status the
complaint has after the request. -/
theorem admin_request_appends_one (s : Store) (r : Request) (id : ObjectId) (c : Complaint)
    (_hc : findById s id = some c) (ht : r.adminTarget = some id)
    (hok : (step s r).1.ok = true) : AppendsOne s (step s r).2 id := by
  cases r with
  | submit user body file now => simp [Request.adminTarget] at ht
  | vote user tid vt t => simp [Request.adminTarget] at ht
  | submitFeedback user tid rating comment now t => simp [Request.adminTarget] at ht
  | updateStatus user tid a b c d t =>
    simp only [Request.adminTarget] at ht
    subst ht
    exact updateStatus_appends s user id a b c d t hok
  | transferDepartment user tid a b t =>
    simp only [Request.adminTarget] at ht
    subst ht
    exact transferDepartment_appends s user id a b t hok
  | adminUpdate user tid body now t =>
    simp only [Request.adminTarget] at ht
    subst ht
    exact adminUpdate_appends s user id body now t hok

/-- Witness of C2: the admin resolves the submitted complaint. -/
theorem admin_request_appends_one_witness :
    findById submittedStore ⟨0⟩ = some sampleComplaint ∧
    AppendsOne submittedStore
      (step submittedStore (.updateStatus officer (some ⟨0⟩) (some "resolved") none none none 1)).2
      ⟨0⟩ :=
  ⟨by decide, admin_request_appends_one submittedStore _ ⟨0⟩ sampleComplaint (by decide) (by decide) (by decide)⟩

/-- Claim C3: for a complaint with an empty vote list and voteCount 0, after any
finite sequence of requests (votes by any actors with any vote types, repeats and
flips included, and every other request) voteCount is the number of upvote entries
minus the number of downvote entries of the stored vote list. -/
theorem voteCount_is_recount (s : Store) (id : ObjectId) (c : Complaint)
    (hc : findById s id = some c) (hv : c.votes = []) (h0 : c.voteCount = 0)
    (rs : List Request) :
    ∃ d, findById (run s rs) id = some d ∧
      d.voteCount = countVotes "upvote" d.votes - countVotes "downvote" d.votes := by
  obtain ⟨d, hd, k⟩ := run_kept rs s hc
  refine ⟨d, hd, k.voteCount ?_⟩
  rw [hv, h0]
  rfl

/-- Witness of C3: four votes by two users on the submitted complaint. -/
theorem voteCount_is_recount_witness :
    findById submittedStore ⟨0⟩ = some sampleComplaint ∧
    ∃ d, findById (run submittedStore
        [.vote alice (some ⟨0⟩) (some "upvote") 2, .vote alice (some ⟨0⟩) (some "upvote") 2,
         .vote alice (some ⟨0⟩) (some "downvote") 2, .vote bob (some ⟨0⟩) (some "downvote") 2]) ⟨0⟩
          = some d ∧
      d.voteCount = countVotes "upvote" d.votes - countVotes "downvote" d.votes :=
  ⟨by decide, voteCount_is_recount submittedStore ⟨0⟩ sampleComplaint (by decide) (by decide)
    (by decide) _⟩

/-- Claim C4, evaluated where it fails: alice votes twice on the same complaint and
the vote list then holds two entries of hers. -/
theorem repeated_vote_two_entries :
    (findById (run submittedStore
        [.vote alice (some ⟨0⟩) (some "upvote") 2, .vote alice (some ⟨0⟩) (some "upvote") 2]) ⟨0⟩).map
      (fun c => c.votes)
      = some [{ user := alice.id, voteType := "upvote" }, { user := alice.id, voteType := "upvote" }] := by
  decide

/-- Claim C5, evaluated where it fails: alice already has an upvote entry; her
second upvote is recorded as a new vote, the list grows to two entries and
voteCount goes from 1 to 2. -/
theorem same_type_vote_not_noop :
    (findById votedStore ⟨0⟩).map (fun c => (c.votes, c.voteCount))
      = some ([{ user := alice.id, voteType := "upvote" }], 1) ∧
    (vote votedStore alice (some ⟨0⟩) (some "upvote") 2).1
      = { status := 200, message := some "Vote recorded successfully", voteCount := some 2 } ∧
    (findById (vote votedStore alice (some ⟨0⟩) (some "upvote") 2).2 ⟨0⟩).map
        (fun c => (c.votes, c.voteCount))
      = some ([{ user := alice.id, voteType := "upvote" },
               { user := alice.id, voteType := "upvote" }], 2) := by
  decide

/-- Claim C6, evaluated where it fails: alice already has an upvote entry; her
downvote leaves that entry as it is and appends a second one, so the list grows
from one entry to two and voteCount goes from 1 to 0. -/
theorem opposite_vote_appends :
    (findById votedStore ⟨0⟩).map (fun c => (c.votes.length, c.voteCount)) = some (1, 1) ∧
    (findById (vote votedStore alice (some ⟨0⟩) (some "downvote") 2).2 ⟨0⟩).map
        (fun c => (c.votes, c.voteCount))
      = some ([{ user := alice.id, voteType := "upvote" },
               { user := alice.id, voteType := "downvote" }], 0) := by
  decide

/-- Counterexample to C7: feedback was submitted, and a later call with the rating
0 is rejected for its rating, not as already submitted. -/
theorem later_feedback_rating_error :
    (submitFeedback resolvedStore alice (some ⟨0⟩) (some (.number 4)) (some "Fixed") 5 5).1.ok = true ∧
    (submitFeedback feedbackStore bob (some ⟨0⟩) (some (.number 0)) none 6 6).1.error
      = some "Rating must be between 1 and 5" ∧
    (submitFeedback feedbackStore bob (some ⟨0⟩) (some (.number 0)) none 6 6).1.error
      ≠ some "Feedback already submitted for this complaint" := by
  decide

/-- Claim C7 as amended: once a submitFeedback call on a complaint has succeeded,
after any further requests every later submitFeedback call on it fails and
changes nothing, the stored feedback is still the one of the first call, and the
error is the already-submitted one whenever the rating is valid and the complaint
is still resolved. -/
theorem feedback_write_once (s : Store) (user : ReqUser) (id : ObjectId)
    (rating : Option JsonValue) (comment : Option String) (now savedAt : Nat)
    (hok : (submitFeedback s user (some id) rating comment now savedAt).1.ok = true)
    (rs : List Request) (user2 : ReqUser) (rating2 : Option JsonValue)
    (comment2 : Option String) (now2 savedAt2 : Nat) :
    (submitFeedback (run (submitFeedback s user (some id) rating comment now savedAt).2 rs) user2
        (some id) rating2 comment2 now2 savedAt2).1.ok = false ∧
    (submitFeedback (run (submitFeedback s user (some id) rating comment now savedAt).2 rs) user2
        (some id) rating2 comment2 now2 savedAt2).2
      = run (submitFeedback s user (some id) rating comment now savedAt).2 rs ∧
    ∃ d stored,
      findById (run (submitFeedback s user (some id) rating comment now savedAt).2 rs) id
        = some d ∧
      storedRating rating = some stored ∧
      d.feedback = { rating := stored, comment := comment, submittedBy := some user.id,
                     submittedAt := some now } ∧
      (ratingRejected rating2 = false → d.status = "resolved" →
        (submitFeedback (run (submitFeedback s user (some id) rating comment now savedAt).2 rs)
          user2 (some id) rating2 comment2 now2 savedAt2).1
          = errorResponse 400 "Feedback already submitted for this complaint") := by
  obtain ⟨c, stored, h0, hcit, hst, hs1⟩ := submitFeedback_ok s user id rating comment now savedAt hok
  rw [hs1]
  have hid : (timestamped c
      { c with
        feedback := { rating := stored, comment := comment, submittedBy := some user.id,
                      submittedAt := some now } } savedAt)._id = id := by
    have h := findById_id h0
    exact h
  have h1 : findById (saveComplaint s (timestamped c
      { c with
        feedback := { rating := stored, comment := comment, submittedBy := some user.id,
                      submittedAt := some now } } savedAt)) id
      = some (timestamped c
          { c with
            feedback := { rating := stored, comment := comment, submittedBy := some user.id,
                          submittedAt := some now } } savedAt) := by
    rw [findById_saveComplaint]
    simp [hid, h0]
  obtain ⟨d, hd, k⟩ := run_kept rs _ h1
  have hfb : d.feedback = { rating := stored, comment := comment, submittedBy := some user.id,
                            submittedAt := some now } := k.feedback rfl
  have hex : feedbackExists d = true := by simp [feedbackExists, hfb]
  have hdc : d.citizen = none := k.citizen.trans hcit
  have hrej := submitFeedback_rejects _ user2 id rating2 comment2 now2 savedAt2 d hd
    (Or.inr (Or.inr (Or.inr hex)))
  exact ⟨hrej.1, hrej.2, d, stored, hd, hst, hfb, fun hr hs =>
    submitFeedback_already _ user2 id rating2 comment2 now2 savedAt2 d hd hr hs hdc hex⟩

/-- Witness of C7 as amended: alice leaves feedback, two votes follow, bob tries. -/
theorem feedback_write_once_witness :
    (submitFeedback resolvedStore alice (some ⟨0⟩) (some (.number 4)) (some "Fixed") 5 5).1.ok
      = true ∧
    (submitFeedback
      (run (submitFeedback resolvedStore alice (some ⟨0⟩) (some (.number 4)) (some "Fixed") 5 5).2
        [.vote bob (some ⟨0⟩) (some "upvote") 6, .vote alice (some ⟨0⟩) (some "downvote") 7])
      bob (some ⟨0⟩) (some (.number 5)) (some "Again") 9 9).1.ok = false :=
  ⟨by decide,
    (feedback_write_once resolvedStore alice ⟨0⟩ (some (.number 4)) (some "Fixed") 5 5 (by decide)
      [.vote bob (some ⟨0⟩) (some "upvote") 6, .vote alice (some ⟨0⟩) (some "downvote") 7]
      bob (some (.number 5)) (some "Again") 9 9).1⟩

/-- Claim C8: on a complaint whose status is not `resolved`, every submitFeedback
call fails, whatever the actor, rating and comment, and leaves the store as it
was. -/
theorem feedback_requires_resolved (s : Store) (user : ReqUser) (id : ObjectId) (c : Complaint)
    (hc : findById s id = some c) (hs : c.status ≠ "resolved") (rating : Option JsonValue)
    (comment : Option String) (now savedAt : Nat) :
    (submitFeedback s user (some id) rating comment now savedAt).1.ok = false ∧
    (submitFeedback s user (some id) rating comment now savedAt).2 = s :=
  submitFeedback_rejects s user id rating comment now savedAt c hc (Or.inr (Or.inl hs))

/-- Witness of C8: feedback on the complaint that is still pending. -/
theorem feedback_requires_resolved_witness :
    findById submittedStore ⟨0⟩ = some sampleComplaint ∧
    sampleComplaint.status ≠ "resolved" ∧
    (submitFeedback submittedStore alice (some ⟨0⟩) (some (.number 5)) none 3 3).1.ok = false ∧
    (submitFeedback submittedStore alice (some ⟨0⟩) (some (.number 5)) none 3 3).2 = submittedStore :=
  ⟨by decide, by decide,
    feedback_requires_resolved submittedStore alice ⟨0⟩ sampleComplaint (by decide) (by decide)
      (some (.number 5)) none 3 3⟩

/-- Counterexample to C9: the resolved complaint has no citizen reference, so the
citizen alice is not its owner, and her feedback with rating 5 is accepted and
stored. -/
theorem citizen_feedback_on_unowned :
    (findById resolvedStore ⟨0⟩).map (fun c => c.citizen) = some none ∧
    alice.role = "citizen" ∧
    (submitFeedback resolvedStore alice (some ⟨0⟩) (some (.number 5)) none 5 5).1.ok = true ∧
    (findById (submitFeedback resolvedStore alice (some ⟨0⟩) (some (.number 5)) none 5 5).2 ⟨0⟩).map
        (fun c => (c.feedback.rating, c.feedback.submittedBy))
      = some (some 5, some alice.id) := by
  decide

/-- Claim C9 as amended: on a complaint that has a citizen reference, submitFeedback
by an authenticated actor who is not that citizen fails for every rating and
stores nothing. -/
theorem feedback_rejects_other_citizen (s : Store) (user : ReqUser) (id : ObjectId)
    (c : Complaint) (owner : ObjectId) (hc : findById s id = some c)
    (ho : c.citizen = some owner) (_hne : user.id ≠ owner) (rating : Option JsonValue)
    (comment : Option String) (now savedAt : Nat) :
    (submitFeedback s user (some id) rating comment now savedAt).1.ok = false ∧
    (submitFeedback s user (some id) rating comment now savedAt).2 = s :=
  submitFeedback_rejects s user id rating comment now savedAt c hc
    (Or.inr (Or.inr (Or.inl (notOriginalComplainant_of_citizen ho))))

/-- Witness of C9 as amended: bob on the resolved complaint linked to alice. -/
theorem feedback_rejects_other_citizen_witness :
    findById linkedStore ⟨0⟩ = some linkedComplaint ∧
    linkedComplaint.citizen = some alice.id ∧
    bob.id ≠ alice.id ∧
    (submitFeedback linkedStore bob (some ⟨0⟩) (some (.number 5)) none 9 9).1.ok = false ∧
    (submitFeedback linkedStore bob (some ⟨0⟩) (some (.number 5)) none 9 9).2 = linkedStore :=
  ⟨by decide, by decide, by decide,
    feedback_rejects_other_citizen linkedStore bob ⟨0⟩ linkedComplaint alice.id (by decide)
      (by decide) (by decide) (some (.number 5)) none 9 9⟩

/-- Counterexample to C10: the resolved complaint is anonymous (contact record, no
citizen reference) and bob's feedback on it is accepted and stored. -/
theorem anonymous_complaint_gets_feedback :
    (findById resolvedStore ⟨0⟩).map (fun c => (c.citizen, c.anonymousInfo.isSome))
      = some (none, true) ∧
    (submitFeedback resolvedStore bob (some ⟨0⟩) (some (.number 3)) (some "Slow") 8 8).1
      = okResponse "Feedback submitted successfully" ∧
    (findById (submitFeedback resolvedStore bob (some ⟨0⟩) (some (.number 3)) (some "Slow") 8 8).2 ⟨0⟩).map
        (fun c => c.feedback)
      = some { rating := some 3, comment := some "Slow", submittedBy := some bob.id,
               submittedAt := some 8 } := by
  decide

/-- Claim C10 as amended: on an anonymous complaint (no citizen reference) the
ownership check is skipped; submitFeedback fails exactly when the rating is
missing or outside 1..5 or is no number at all, the status is not `resolved`, or
feedback was already submitted, a failing call changes nothing, and a succeeding
call stores the feedback of the caller. -/
theorem anonymous_feedback (s : Store) (user : ReqUser) (id : ObjectId) (c : Complaint)
    (hc : findById s id = some c) (ha : c.citizen = none) (rating : Option JsonValue)
    (comment : Option String) (now savedAt : Nat) :
    ((submitFeedback s user (some id) rating comment now savedAt).1.ok = false ↔
      (ratingRejected rating = true ∨ storedRating rating = none ∨ c.status ≠ "resolved" ∨
        feedbackExists c = true)) ∧
    ((submitFeedback s user (some id) rating comment now savedAt).1.ok = false →
      (submitFeedback s user (some id) rating comment now savedAt).2 = s) ∧
    ((submitFeedback s user (some id) rating comment now savedAt).1.ok = true →
      ∃ stored, storedRating rating = some stored ∧
        (findById (submitFeedback s user (some id) rating comment now savedAt).2 id).map
            (fun d => d.feedback)
          = some { rating := stored, comment := comment, submittedBy := some user.id,
                   submittedAt := some now }) := by
  have hno : notOriginalComplainant c user = false := by
    simp [notOriginalComplainant, ha]
  have hid := findById_id hc
  have key : (ratingRejected rating = true ∨ storedRating rating = none ∨
      c.status ≠ "resolved" ∨ feedbackExists c = true) →
      (submitFeedback s user (some id) rating comment now savedAt).1.ok = false := by
    intro h
    rcases h with h | h | h | h
    · exact (submitFeedback_rejects s user id rating comment now savedAt c hc (Or.inl h)).1
    · exact submitFeedback_unsaved s user (some id) rating comment now savedAt h
    · exact (submitFeedback_rejects s user id rating comment now savedAt c hc
        (Or.inr (Or.inl h))).1
    · exact (submitFeedback_rejects s user id rating comment now savedAt c hc
        (Or.inr (Or.inr (Or.inr h)))).1
  have good : ∀ stored, ratingRejected rating = false → storedRating rating = some stored →
      c.status = "resolved" → feedbackExists c = false →
      (submitFeedback s user (some id) rating comment now savedAt) =
        (okResponse "Feedback submitted successfully", saveComplaint s (timestamped c
          { c with
            feedback := { rating := stored, comment := comment, submittedBy := some user.id,
                          submittedAt := some now } } savedAt)) := by
    intro stored h1 h2 h3 h4
    unfold submitFeedback
    simp [h1, hc, h2, hno, h3, h4]
  refine ⟨⟨fun hf => ?_, key⟩, submitFeedback_error s user (some id) rating comment now savedAt,
    fun hok => ?_⟩
  · by_cases h1 : ratingRejected rating = true
    · exact Or.inl h1
    · cases h2 : storedRating rating with
      | none => exact Or.inr (Or.inl rfl)
      | some stored =>
        by_cases h3 : c.status = "resolved"
        · by_cases h4 : feedbackExists c = true
          · exact Or.inr (Or.inr (Or.inr h4))
          · exfalso
            rw [good stored (by simpa using h1) h2 h3 (by simpa using h4)] at hf
            simp [okResponse, Response.ok] at hf
        · exact Or.inr (Or.inr (Or.inl h3))
  · have h1 : ratingRejected rating = false := by
      cases h : ratingRejected rating with
      | false => rfl
      | true => rw [key (Or.inl h)] at hok; exact absurd hok (by decide)
    cases h2 : storedRating rating with
    | none => rw [key (Or.inr (Or.inl h2))] at hok; exact absurd hok (by decide)
    | some stored =>
      have h3 : c.status = "resolved" := by
        by_contra h
        rw [key (Or.inr (Or.inr (Or.inl h)))] at hok
        exact absurd hok (by decide)
      have h4 : feedbackExists c = false := by
        cases h : feedbackExists c with
        | false => rfl
        | true => rw [key (Or.inr (Or.inr (Or.inr h)))] at hok; exact absurd hok (by decide)
      refine ⟨stored, rfl, ?_⟩
      rw [good stored h1 h2 h3 h4, findById_saveComplaint]
      have hid2 : (timestamped c
          { c with
            feedback := { rating := stored, comment := comment, submittedBy := some user.id,
                          submittedAt := some now } } savedAt)._id = id := hid
      simp [hid2, hc]
      rfl

/-- Witness of C10 as amended: feedback on the anonymous complaint while pending. -/
theorem anonymous_feedback_witness :
    findById submittedStore ⟨0⟩ = some sampleComplaint ∧
    sampleComplaint.citizen = none ∧
    ((submitFeedback submittedStore bob (some ⟨0⟩) (some (.number 3)) none 4 4).1.ok = false ↔
      (ratingRejected (some (.number 3)) = true ∨ storedRating (some (.number 3)) = none ∨
        sampleComplaint.status ≠ "resolved" ∨ feedbackExists sampleComplaint = true)) :=
  ⟨by decide, by decide,
    (anonymous_feedback submittedStore bob ⟨0⟩ sampleComplaint (by decide) (by decide)
      (some (.number 3)) none 4 4).1⟩

/-! ## Submission lemmas -/

/-- The no-break space is removed like the space, at either end. -/
theorem trim_no_break_space :
    trim "\u00A0moved\u00A0" = "moved" ∧ trim " \u00A0\t" = "" ∧ trim "a\u00A0b" = "a\u00A0b" := by
  decide

theorem trim_ne_empty {t : String} (h : trim t ≠ "") : t ≠ "" := by
  intro he
  rw [he] at h
  exact h (by decide)

theorem submit_accepts (s : Store) (user : Option ReqUser) (body : SubmitBody)
    (file : Option String) (now : Nat) (hv : validSubmission body = true)
    (hu : namedActor user = true) :
    ∃ c u, submit s user body file now =
        ({ status := 201, id := some c._id, message := some "Complaint submitted successfully" },
         { complaints := s.complaints ++ [c], statusUpdates := s.statusUpdates ++ [u],
           nextId := s.nextId + 2 }) ∧
      c._id = ⟨s.nextId⟩ ∧ c.status = "pending" ∧ body.category = some c.category ∧
      c.category ∈ validCategories ∧
      c.assignedDepartment = departmentMapping c.category ∧
      u.complaint = c._id ∧ u.status = "pending" ∧ u.comment = some "Complaint submitted" := by
  unfold validSubmission at hv
  cases ht : body.title with
  | none => simp [ht] at hv
  | some title =>
  cases hd : body.description with
  | none => simp [ht, hd] at hv
  | some description =>
  cases hc : body.category with
  | none => simp [ht, hd, hc] at hv
  | some category =>
  cases hlat : body.latitude with
  | none => simp [ht, hd, hc, hlat] at hv
  | some latitude =>
  cases hlng : body.longitude with
  | none => simp [ht, hd, hc, hlat, hlng] at hv
  | some longitude =>
  simp only [ht, hd, hc, hlat, hlng, Bool.and_eq_true, bne_iff_ne, ne_eq] at hv
  obtain ⟨⟨⟨⟨⟨⟨h1, h2⟩, h3⟩, h4⟩, h5⟩, h6⟩, h7⟩ := hv
  obtain ⟨lat, hlatv⟩ := Option.isSome_iff_exists.mp h5
  obtain ⟨lng, hlngv⟩ := Option.isSome_iff_exists.mp h7
  have h1' := trim_ne_empty h1
  have h2' := trim_ne_empty h2
  have hcat : category ≠ "" := by
    intro he
    rw [he] at h3
    exact absurd h3 (by decide)
  have hmem : category ∈ validCategories := by simpa using h3
  have hp : "pending" ∈ validStatuses := by decide
  have htrim : trim "Complaint submitted" = "Complaint submitted" := by decide
  cases user with
  | none =>
    unfold submit
    simp only [ht, hd, hc, hlat, hlng]
    simp [h1', h2', hcat, h4, h6, hlatv, hlngv, h1, h2, hmem, hp, htrim, saveStatusUpdate,
      statusUpdateValid]
    refine ⟨_, _, ⟨?_, rfl, rfl⟩, ?_⟩
    · rfl
    · exact ⟨rfl, rfl, rfl, hmem, rfl, rfl, rfl, rfl⟩
  | some actor =>
    have hname : actor.username ≠ "" := by simpa [namedActor] using hu
    unfold submit
    simp only [ht, hd, hc, hlat, hlng]
    simp [h1', h2', hcat, h4, h6, hlatv, hlngv, h1, h2, hmem, hp, htrim, hname, saveStatusUpdate,
      statusUpdateValid]
    refine ⟨_, _, ⟨?_, rfl, rfl⟩, ?_⟩
    · rfl
    · exact ⟨rfl, rfl, rfl, hmem, rfl, rfl, rfl, rfl⟩

theorem trim_eq_self (t : String) (a b : Char) (l m : List Char)
    (hfirst : t.data = a :: l) (ha : isJsWhitespace a = false)
    (hlast : t.data.reverse = b :: m) (hb : isJsWhitespace b = false) : trim t = t := by
  unfold trim
  rw [hfirst, List.dropWhile_cons, ha]
  simp only [Bool.false_eq_true, if_false]
  rw [← hfirst, hlast, List.dropWhile_cons, hb]
  simp only [Bool.false_eq_true, if_false]
  rw [← hlast, List.reverse_reverse]

theorem trim_transfer (old d : String) (hd : d ∈ validDepartments) :
    trim ("Transferred from " ++ old ++ " to " ++ d)
      = "Transferred from " ++ old ++ " to " ++ d := by
  have hdata : ("Transferred from " ++ old ++ " to " ++ d).data
      = 'T' :: ("ransferred from ".data ++ old.data ++ " to ".data ++ d.data) := by
    simp [String.data_append]
  have hlastd : ∃ b m, d.data.reverse = b :: m ∧ isJsWhitespace b = false := by
    simp only [validDepartments, List.mem_cons, List.mem_singleton, List.not_mem_nil,
      or_false] at hd
    rcases hd with rfl | rfl | rfl | rfl | rfl | rfl <;> exact ⟨_, _, rfl, by decide⟩
  obtain ⟨b, m, hm, hb⟩ := hlastd
  refine trim_eq_self _ 'T' b _ (m ++ ('T' :: ("ransferred from ".data ++ old.data ++ " to ".data)).reverse)
    hdata (by decide) ?_ hb
  rw [hdata]
  have : 'T' :: ("ransferred from ".data ++ old.data ++ " to ".data ++ d.data)
      = ('T' :: ("ransferred from ".data ++ old.data ++ " to ".data)) ++ d.data := by simp
  rw [this, List.reverse_append, hm]
  rfl

theorem submit_ok_shape (s : Store) (user : Option ReqUser) (body : SubmitBody)
    (file : Option String) (now : Nat) :
    (submit s user body file now).1.ok = true →
    ∃ c, (submit s user body file now).2.complaints = s.complaints ++ [c] ∧
      body.category = some c.category ∧ c.category ∈ validCategories ∧
      c.assignedDepartment = departmentMapping c.category := by
  unfold submit
  repeat' (first | dsimp only | split)
  all_goals first
    | (intro hok; simp [errorResponse, Response.ok] at hok; done)
    | (intro _
       have hs := ‹saveStatusUpdate _ _ _ _ _ _ = some _›
       have hcat := ‹body.category = some _›
       have hval := ‹¬ (_ || _ || !(validCategories.contains _)) = true›
       rw [saveStatusUpdate_eq hs]
       refine ⟨_, rfl, hcat, ?_, rfl⟩
       simp only [Bool.or_eq_true, Bool.not_eq_true', not_or, Bool.not_eq_false] at hval
       simpa using hval.2)

/-! ## Claims on feedback, submission and the admin routes -/

/-- Claim C11, evaluated where it fails: the resolved complaint is linked to alice
and has no feedback, and her feedback with rating 5 is answered 403 and changes
nothing. -/
theorem owner_feedback_rejected :
    findById linkedStore ⟨0⟩ = some linkedComplaint ∧
    linkedComplaint.citizen = some alice.id ∧
    linkedComplaint.status = "resolved" ∧
    feedbackExists linkedComplaint = false ∧
    submitFeedback linkedStore alice (some ⟨0⟩) (some (.number 5)) (some "Thanks") 9 9
      = (errorResponse 403 "Only the original complainant can provide feedback", linkedStore) := by
  decide

/-- Counterexample to C12: the rating is the text `abc`, which is not in the range
1 to 5. The guard lets it pass, so on an id that matches no complaint the answer
is 404 and on the pending complaint it is the not-resolved error; on the resolved
complaint it is `save()` that refuses it, and the answer is 500. -/
theorem text_rating_passes_guard :
    ratingRejected (some textRating) = false ∧
    submitFeedback submittedStore alice (some ⟨7⟩) (some textRating) none 3 3
      = (errorResponse 404 "Complaint not found", submittedStore) ∧
    submitFeedback submittedStore alice (some ⟨0⟩) (some textRating) none 3 3
      = (errorResponse 400 "Can only provide feedback for resolved complaints",
         submittedStore) ∧
    submitFeedback resolvedStore alice (some ⟨0⟩) (some textRating) none 3 3
      = (errorResponse 500 "Failed to submit feedback", resolvedStore) := by
  decide

/-- Claim C12 as amended: a rating that is missing or empty, or that denotes a
number outside 1..5, is answered with the rating error before any other check,
whatever the store and the id, and the store is unchanged; a number from 1 to 5
never gets the rating error and is accepted by the schema; a rating that denotes
no number is never stored, its call fails; and every call that fails leaves the
store unchanged. -/
theorem rating_check_first (s : Store) (user : ReqUser) (id : Option ObjectId)
    (comment : Option String) (now savedAt : Nat) :
    (∀ rating, JsonValue.falsy rating = true →
      submitFeedback s user id rating comment now savedAt
        = (errorResponse 400 "Rating must be between 1 and 5", s)) ∧
    (∀ (v : JsonValue) (n : Rat), v.toNumber = some n → (n < 1 ∨ 5 < n) →
      submitFeedback s user id (some v) comment now savedAt
        = (errorResponse 400 "Rating must be between 1 and 5", s)) ∧
    (∀ n : Rat, 1 ≤ n → n ≤ 5 →
      (submitFeedback s user id (some (.number n)) comment now savedAt).1
        ≠ errorResponse 400 "Rating must be between 1 and 5" ∧
      storedRating (some (.number n)) = some (some n)) ∧
    (∀ v : JsonValue, v.toNumber = none →
      (submitFeedback s user id (some v) comment now savedAt).1.ok = false ∧
      (submitFeedback s user id (some v) comment now savedAt).2 = s) ∧
    (∀ rating, (submitFeedback s user id rating comment now savedAt).1.ok = false →
      (submitFeedback s user id rating comment now savedAt).2 = s) := by
  refine ⟨?_, ?_, ?_, ?_, ?_⟩
  · intro rating hf
    unfold submitFeedback
    simp [ratingRejected, hf]
  · intro v n hv hbad
    have hr : ratingRejected (some v) = true := by
      simp only [ratingRejected, Option.bind, hv, Bool.or_eq_true, decide_eq_true_eq]
      exact Or.inr hbad
    unfold submitFeedback
    simp [hr]
  · intro n h1 h5
    have h0 : n ≠ 0 := by
      intro h
      rw [h] at h1
      exact absurd h1 (by norm_num)
    have hr : ratingRejected (some (.number n)) = false := by
      simp only [ratingRejected, JsonValue.falsy, Option.bind, JsonValue.toNumber,
        Bool.or_eq_false_iff, beq_eq_false_iff_ne, ne_eq, decide_eq_false_iff_not, not_lt]
      exact ⟨h0, h1, h5⟩
    refine ⟨?_, ?_⟩
    · unfold submitFeedback
      simp only [hr, Bool.false_eq_true, if_false]
      repeat' (first | dsimp only | split)
      all_goals simp [errorResponse, okResponse]
    · simp [storedRating, castNumber, h1, h5]
  · intro v hv
    have hno : (submitFeedback s user id (some v) comment now savedAt).1.ok = false := by
      cases hf : JsonValue.falsy (some v) with
      | true =>
        have hr : ratingRejected (some v) = true := by simp [ratingRejected, hf]
        unfold submitFeedback
        simp [hr, errorResponse, Response.ok]
      | false =>
        have hst : storedRating (some v) = none := by
          cases v with
          | null => simp [JsonValue.toNumber] at hv
          | bool b => simp [JsonValue.toNumber] at hv
          | number n => simp [JsonValue.toNumber] at hv
          | text p =>
            have h1 : p.value = none := hv
            have h2 : (p.text == "") = false := by simpa [JsonValue.falsy] using hf
            simp [storedRating, castNumber, h1, h2]
          | array a => simp [storedRating, castNumber]
          | object => simp [storedRating, castNumber]
        exact submitFeedback_unsaved s user id (some v) comment now savedAt hst
    exact ⟨hno, submitFeedback_error s user id (some v) comment now savedAt hno⟩
  · intro rating
    exact submitFeedback_error s user id rating comment now savedAt

/-- Witness of C12 as amended: the ratings 9, 3 and `abc` on the resolved
complaint. -/
theorem rating_check_first_witness :
    submitFeedback resolvedStore alice (some ⟨0⟩) (some (.number 9)) none 3 3
      = (errorResponse 400 "Rating must be between 1 and 5", resolvedStore) ∧
    (submitFeedback resolvedStore alice (some ⟨0⟩) (some (.number 3)) none 3 3).1
      ≠ errorResponse 400 "Rating must be between 1 and 5" ∧
    (submitFeedback resolvedStore alice (some ⟨0⟩) (some textRating) none 3 3).2
      = resolvedStore :=
  ⟨(rating_check_first resolvedStore alice (some ⟨0⟩) none 3 3).2.1 (.number 9) 9 rfl
      (Or.inr (by decide)),
    ((rating_check_first resolvedStore alice (some ⟨0⟩) none 3 3).2.2.1 3 (by decide)
      (by decide)).1,
    ((rating_check_first resolvedStore alice (some ⟨0⟩) none 3 3).2.2.2.1 textRating
      (by decide)).2⟩

/-- Claim C13: the handler's category map agrees with the specified map on the nine
categories and takes them into the six departments, and the complaint an accepted
submission creates has a category of the nine and the department the specified
map gives that category. -/
theorem default_department (s : Store) (user : Option ReqUser) (body : SubmitBody)
    (file : Option String) (now : Nat) (hok : (submit s user body file now).1.ok = true) :
    (∀ category ∈ validCategories,
      specDepartment category = some (departmentMapping category) ∧
      departmentMapping category ∈ validDepartments) ∧
    ∃ c, (submit s user body file now).2.complaints = s.complaints ++ [c] ∧
      body.category = some c.category ∧ c.category ∈ validCategories ∧
      specDepartment c.category = some c.assignedDepartment ∧
      c.assignedDepartment ∈ validDepartments := by
  have hmap : ∀ category ∈ validCategories,
      specDepartment category = some (departmentMapping category) ∧
      departmentMapping category ∈ validDepartments := by decide
  refine ⟨hmap, ?_⟩
  obtain ⟨c, hcs, hcat, hmem, hdep⟩ := submit_ok_shape s user body file now hok
  refine ⟨c, hcs, hcat, hmem, ?_, ?_⟩
  · rw [hdep]
    exact (hmap c.category hmem).1
  · rw [hdep]
    exact (hmap c.category hmem).2

/-- Witness of C13: the sample form submitted to the empty store. -/
theorem default_department_witness :
    (submit Store.empty none sampleForm none 0).1.ok = true ∧
    ∃ c, (submit Store.empty none sampleForm none 0).2.complaints
        = Store.empty.complaints ++ [c] ∧
      sampleForm.category = some c.category ∧ c.category ∈ validCategories ∧
      specDepartment c.category = some c.assignedDepartment ∧
      c.assignedDepartment ∈ validDepartments :=
  ⟨by decide, (default_department Store.empty none sampleForm none 0 (by decide)).2⟩

/-- Counterexample to C14: title, description, a category of the enum, latitude and
longitude are all present, but the latitude text is no number; the request is
answered 500 and no Complaint and no StatusUpdate is created. The same happens
to the form whose title is present but blank, a single no-break space. -/
theorem nonnumeric_latitude_rejected :
    truthy textLatitudeForm.title = true ∧ truthy textLatitudeForm.description = true ∧
    textLatitudeForm.category = some "pothole" ∧ "pothole" ∈ validCategories ∧
    truthyParsed textLatitudeForm.latitude = true ∧
    truthyParsed textLatitudeForm.longitude = true ∧
    submit Store.empty none textLatitudeForm none 0
      = (errorResponse 500 "Database error", Store.empty) ∧
    truthy blankTitleForm.title = true ∧
    submit Store.empty none blankTitleForm none 0
      = (errorResponse 500 "Database error", Store.empty) := by
  decide

/-- Claim C14 as amended: a submission whose title and description are present and
not blank, whose category is of the enum and whose latitude and longitude are
present and numeric is answered 201 and adds exactly one complaint, with status
`pending`, and exactly one StatusUpdate, with status `pending`, the comment
`Complaint submitted` and the new complaint as its reference; the id returned is
the id of the new complaint. -/
theorem submit_creates_one (s : Store) (user : Option ReqUser) (body : SubmitBody)
    (file : Option String) (now : Nat) (hv : validSubmission body = true)
    (hu : namedActor user = true) :
    ∃ c u,
      (submit s user body file now).1
        = { status := 201, id := some c._id, message := some "Complaint submitted successfully" } ∧
      (submit s user body file now).2.complaints = s.complaints ++ [c] ∧
      (submit s user body file now).2.statusUpdates = s.statusUpdates ++ [u] ∧
      c.status = "pending" ∧ u.status = "pending" ∧ u.comment = some "Complaint submitted" ∧
      u.complaint = c._id := by
  obtain ⟨c, u, he, _, hst, _, _, _, huc, hus, hcm⟩ := submit_accepts s user body file now hv hu
  exact ⟨c, u, by rw [he], by rw [he], by rw [he], hst, hus, hcm, huc⟩

/-- Witness of C14: the sample form submitted to the empty store. -/
theorem submit_creates_one_witness :
    validSubmission sampleForm = true ∧ namedActor none = true ∧
    ∃ c u,
      (submit Store.empty none sampleForm none 0).1
        = { status := 201, id := some c._id, message := some "Complaint submitted successfully" } ∧
      (submit Store.empty none sampleForm none 0).2.complaints = Store.empty.complaints ++ [c] ∧
      (submit Store.empty none sampleForm none 0).2.statusUpdates
        = Store.empty.statusUpdates ++ [u] ∧
      c.status = "pending" ∧ u.status = "pending" ∧ u.comment = some "Complaint submitted" ∧
      u.complaint = c._id :=
  ⟨by decide, by decide,
    submit_creates_one Store.empty none sampleForm none 0 (by decide) (by decide)⟩

/-- Counterexample to C15: a form that is complete but for its category `noise`,
which is not of the enum, is answered 500, not 400. -/
theorem unknown_category_is_500 :
    noiseForm.category = some "noise" ∧ "noise" ∉ validCategories ∧
    submit Store.empty none noiseForm none 0
      = (errorResponse 500 "Database error", Store.empty) ∧
    (submit Store.empty none noiseForm none 0).1.status ≠ 400 := by
  decide

/-- Claim C15 as amended: a submission in which title, description, category,
latitude or longitude is missing or empty is answered 400 and creates nothing; a
submission with all five present is never answered 400, and when its category is
not one of the nine of the enum it is answered 500 and creates nothing. -/
theorem submit_validation (s : Store) (user : Option ReqUser) (body : SubmitBody)
    (file : Option String) (now : Nat) :
    ((truthy body.title = false ∨ truthy body.description = false ∨
        truthy body.category = false ∨ truthyParsed body.latitude = false ∨
        truthyParsed body.longitude = false) →
      submit s user body file now = (errorResponse 400 "Missing required fields", s)) ∧
    ((truthy body.title = true ∧ truthy body.description = true ∧
        truthy body.category = true ∧ truthyParsed body.latitude = true ∧
        truthyParsed body.longitude = true) →
      (∀ category, body.category = some category → category ∉ validCategories →
        submit s user body file now = (errorResponse 500 "Database error", s)) ∧
      (submit s user body file now).1.status ≠ 400) := by
  cases ht : body.title with
  | none => simp [submit, ht, truthy]
  | some title =>
  cases hd : body.description with
  | none => simp [submit, ht, hd, truthy]
  | some description =>
  cases hc : body.category with
  | none => simp [submit, ht, hd, hc, truthy]
  | some category =>
  cases hlat : body.latitude with
  | none => simp [submit, ht, hd, hc, hlat, truthy, truthyParsed]
  | some latitude =>
  cases hlng : body.longitude with
  | none => simp [submit, ht, hd, hc, hlat, hlng, truthy, truthyParsed]
  | some longitude =>
  by_cases he : (title == "" || description == "" || category == "" || latitude.text == "" ||
      longitude.text == "") = true
  · have hsub : submit s user body file now = (errorResponse 400 "Missing required fields", s) := by
      unfold submit
      simp only [ht, hd, hc, hlat, hlng, he, if_true]
    refine ⟨fun _ => hsub, fun hp => ?_⟩
    exfalso
    simp only [Bool.or_eq_true, beq_iff_eq] at he
    simp only [truthy, truthyParsed, bne_iff_ne, ne_eq] at hp
    rcases he with (((h | h) | h) | h) | h
    · exact hp.1 h
    · exact hp.2.1 h
    · exact hp.2.2.1 h
    · exact hp.2.2.2.1 h
    · exact hp.2.2.2.2 h
  · refine ⟨fun hm => ?_, fun _ => ⟨fun c hc' hnot => ?_, ?_⟩⟩
    · exfalso
      apply he
      simp only [truthy, truthyParsed, bne_eq_false_iff_eq] at hm
      simp only [Bool.or_eq_true, beq_iff_eq]
      rcases hm with h | h | h | h | h
      · exact Or.inl (Or.inl (Or.inl (Or.inl h)))
      · exact Or.inl (Or.inl (Or.inl (Or.inr h)))
      · exact Or.inl (Or.inl (Or.inr h))
      · exact Or.inl (Or.inr h)
      · exact Or.inr h
    · cases hc'
      unfold submit
      simp only [ht, hd, hc, hlat, hlng, he]
      cases latitude.value <;> cases longitude.value <;> simp [hnot]
    · unfold submit
      simp only [ht, hd, hc, hlat, hlng, he]
      repeat' (first | dsimp only | split)
      all_goals first
        | (simp [errorResponse]; done)
        | (rename_i hf; exact absurd hf (by decide))

/-- Witness of C15 as amended: the sample form without its title, and two complete
forms, one of them with latitude and longitude `0`. -/
theorem submit_validation_witness :
    submit Store.empty none { sampleForm with title := none } none 0
      = (errorResponse 400 "Missing required fields", Store.empty) ∧
    (submit Store.empty none sampleForm none 0).1.status ≠ 400 ∧
    (submit Store.empty none zeroForm none 0).1.status ≠ 400 :=
  ⟨(submit_validation Store.empty none { sampleForm with title := none } none 0).1
      (Or.inl (by decide)),
    ((submit_validation Store.empty none sampleForm none 0).2 (by decide)).2,
    ((submit_validation Store.empty none zeroForm none 0).2 (by decide)).2⟩

/-- Claim C16: a request to `POST /` that fails creates nothing, and the complaint
that a successful one creates, whatever the Authorization header of the request
(none, a citizen's token, an admin's) and whatever its isAnonymous field, has the
anonymousInfo record and no citizen reference: exactly one of the two is
populated. -/
theorem submit_one_owner_record (s : Store) (authorization : Option String)
    (body : SubmitBody) (file : Option String) (now : Nat) :
    ((postComplaint s authorization body file now).1.ok = false →
      (postComplaint s authorization body file now).2 = s) ∧
    ((postComplaint s authorization body file now).1.ok = true →
      ∃ c, (postComplaint s authorization body file now).2.complaints = s.complaints ++ [c] ∧
        (postComplaint s authorization body file now).1.id = some c._id ∧
        c.citizen = none ∧ c.anonymousInfo.isSome = true ∧
        (c.citizen.isSome != c.anonymousInfo.isSome) = true) := by
  unfold postComplaint submit
  repeat' (first | dsimp only | split)
  all_goals first
    | (refine ⟨fun _ => rfl, fun hok => ?_⟩
       simp [errorResponse, Response.ok] at hok)
    | (have hs := ‹saveStatusUpdate _ _ _ _ _ _ = some _›
       refine ⟨fun hok => ?_, fun _ => ?_⟩
       · simp [Response.ok] at hok
       · rw [saveStatusUpdate_eq hs]
         refine ⟨_, rfl, rfl, rfl, ?_, ?_⟩ <;> simp)
    | (have hs := ‹saveStatusUpdate _ _ _ _ _ _ = none›
       simp [saveStatusUpdate, statusUpdateValid, validStatuses] at hs)

/-- Witness of C16: alice's token is sent with the form that carries isAnonymous
`false`. -/
theorem submit_one_owner_record_witness :
    (postComplaint Store.empty (some "Bearer good") falseFlagForm none 0).1.ok = true ∧
    ∃ c, (postComplaint Store.empty (some "Bearer good") falseFlagForm none 0).2.complaints
        = Store.empty.complaints ++ [c] ∧
      c.citizen = none ∧ c.anonymousInfo.isSome = true :=
  ⟨by decide,
    Exists.elim
      ((submit_one_owner_record Store.empty (some "Bearer good") falseFlagForm none 0).2
        (by decide))
      (fun c h => ⟨c, h.1, h.2.2.1, h.2.2.2.1⟩)⟩

/-- Claim C17, evaluated where it fails: alice is a citizen and her form carries
isAnonymous `false`; the complaint created has no citizen reference, whereas the
same form without the field is linked to her. -/
theorem unchecked_box_not_linked :
    alice.role = "citizen" ∧ falseFlagForm.isAnonymous = some "false" ∧
    (submit Store.empty (some alice) falseFlagForm none 0).1.status = 201 ∧
    (submit Store.empty (some alice) falseFlagForm none 0).2.complaints.map
        (fun c => c.citizen) = [none] ∧
    (submit Store.empty (some alice) sampleForm none 0).2.complaints.map
        (fun c => c.citizen) = [some alice.id] := by
  decide

/-- Claim C18: for an actor whose role is not admin, updateStatus,
transferDepartment and adminUpdate answer 403 for every input and leave the store
as it was. -/
theorem non_admin_rejected (s : Store) (user : ReqUser) (h : user.role ≠ "admin") :
    (∀ id status comment assignedDepartment assignedTo savedAt,
      updateStatus s user id status comment assignedDepartment assignedTo savedAt
        = (errorResponse 403 "Access denied", s)) ∧
    (∀ id department comment savedAt,
      transferDepartment s user id department comment savedAt
        = (errorResponse 403 "Access denied", s)) ∧
    (∀ id body now savedAt,
      adminUpdate s user id body now savedAt
        = (errorResponse 403 "Admin access required", s)) := by
  refine ⟨?_, ?_, ?_⟩
  · intro id status comment assignedDepartment assignedTo savedAt
    unfold updateStatus
    simp [h]
  · intro id department comment savedAt
    unfold transferDepartment
    simp [h]
  · intro id body now savedAt
    unfold adminUpdate
    simp [h]

/-- Witness of C18: the citizen alice tries to resolve a complaint. -/
theorem non_admin_rejected_witness :
    alice.role ≠ "admin" ∧
    updateStatus submittedStore alice (some ⟨0⟩) (some "resolved") none none none 1
      = (errorResponse 403 "Access denied", submittedStore) :=
  ⟨by decide,
    (non_admin_rejected submittedStore alice (by decide)).1 (some ⟨0⟩) (some "resolved") none
      none none 1⟩

/-- Claim C19: for an admin, updateStatus with a status that is missing or not one
of the four is answered 400, and with a valid status and an id that matches no
complaint is answered 404; in both cases the store is as it was. -/
theorem updateStatus_validation (s : Store) (user : ReqUser) (hadmin : user.role = "admin") :
    (∀ id status comment assignedDepartment assignedTo savedAt,
      (status = none ∨ ∃ st, status = some st ∧ st ∉ validStatuses) →
      (updateStatus s user id status comment assignedDepartment assignedTo savedAt).1.status
        = 400 ∧
      (updateStatus s user id status comment assignedDepartment assignedTo savedAt).2 = s) ∧
    (∀ id st comment assignedDepartment assignedTo savedAt,
      st ∈ validStatuses → findById s id = none →
      updateStatus s user (some id) (some st) comment assignedDepartment assignedTo savedAt
        = (errorResponse 404 "Complaint not found", s)) := by
  refine ⟨?_, ?_⟩
  · intro id status comment assignedDepartment assignedTo savedAt hbad
    unfold updateStatus
    rcases hbad with rfl | ⟨st, rfl, hst⟩
    · simp [hadmin, errorResponse]
    · by_cases he : st = ""
      · simp [hadmin, he, errorResponse]
      · simp [hadmin, he, hst, errorResponse]
  · intro id st comment assignedDepartment assignedTo savedAt hst hnone
    have hne : st ≠ "" := by
      intro he
      rw [he] at hst
      exact absurd hst (by decide)
    unfold updateStatus
    simp [hadmin, hne, hst, hnone]

/-- Witness of C19: an unknown status, and an id that matches nothing. -/
theorem updateStatus_validation_witness :
    officer.role = "admin" ∧
    (updateStatus submittedStore officer (some ⟨0⟩) (some "done") none none none 1).1.status
      = 400 ∧
    updateStatus submittedStore officer (some ⟨7⟩) (some "closed") none none none 1
      = (errorResponse 404 "Complaint not found", submittedStore) :=
  ⟨by decide,
    ((updateStatus_validation submittedStore officer (by decide)).1 (some ⟨0⟩) (some "done")
      none none none 1 (Or.inr ⟨"done", rfl, by decide⟩)).1,
    (updateStatus_validation submittedStore officer (by decide)).2 ⟨7⟩ "closed" none none none 1
      (by decide) (by decide)⟩

/-- Counterexample to C20: the supplied comment has a space at either end and the
StatusUpdate appended by the transfer carries the comment without them; so it
does with a no-break space at either end. -/
theorem transfer_comment_trimmed :
    (transferDepartment submittedStore officer (some ⟨0⟩) (some "water")
        (some " moved ") 1).1.ok = true ∧
    (transferDepartment submittedStore officer (some ⟨0⟩) (some "water")
        (some " moved ") 1).2.statusUpdates.map (fun u => u.comment)
      = [some "Complaint submitted", some "moved"] ∧
    (transferDepartment submittedStore officer (some ⟨0⟩) (some "water")
        (some "\u00A0moved\u00A0") 1).2.statusUpdates.map (fun u => u.comment)
      = [some "Complaint submitted", some "moved"] := by
  decide

/-- Claim C20 as amended: for an existing complaint, an admin and a valid department
`d`, transferDepartment stores the complaint with assignedDepartment `d`, with
`updatedAt` set to the time of the save when `d` is not the department it had, and
with every other field as it was, the status included; it appends one
StatusUpdate with the status of the complaint, department `d`, and as comment
the supplied comment (trimmed, as the schema stores it) or, when none is
supplied, `Transferred from <old> to <d>`. -/
theorem transfer_frame (s : Store) (user : ReqUser) (id : ObjectId) (c : Complaint)
    (d : String) (comment : Option String) (savedAt : Nat) (hadmin : user.role = "admin")
    (hname : user.username ≠ "") (hc : findById s id = some c)
    (hst : c.status ∈ validStatuses) (hd : d ∈ validDepartments) :
    ∃ u,
      (transferDepartment s user (some id) (some d) comment savedAt).1
        = okResponse "Complaint transferred successfully" ∧
      (transferDepartment s user (some id) (some d) comment savedAt).2.statusUpdates
        = s.statusUpdates ++ [u] ∧
      findById (transferDepartment s user (some id) (some d) comment savedAt).2 id
        = some { c with
            assignedDepartment := d,
            updatedAt := if d = c.assignedDepartment then c.updatedAt else savedAt } ∧
      (∀ other e, other ≠ id → findById s other = some e →
        findById (transferDepartment s user (some id) (some d) comment savedAt).2 other
          = some e) ∧
      (transferDepartment s user (some id) (some d) comment savedAt).2.complaints.map
          (fun e => e._id) = s.complaints.map (fun e => e._id) ∧
      u.complaint = id ∧ u.status = c.status ∧ u.department = some d ∧
      u.updatedBy = user.username ∧
      (∀ t, comment = some t → t ≠ "" → u.comment = some (trim t)) ∧
      (truthy comment = false →
        u.comment = some ("Transferred from " ++ c.assignedDepartment ++ " to " ++ d)) := by
  have hdne : d ≠ "" := by
    intro he
    rw [he] at hd
    exact absurd hd (by decide)
  have hid := findById_id hc
  have hts : timestamped c { c with assignedDepartment := d } savedAt
      = { c with
          assignedDepartment := d,
          updatedAt := if d = c.assignedDepartment then c.updatedAt else savedAt } := by
    have hiff : ({ c with assignedDepartment := d } : Complaint) = c ↔ d = c.assignedDepartment := by
      cases c
      simp
    unfold timestamped
    by_cases h : d = c.assignedDepartment
    · simp [hiff, h]
    · simp [hiff, h]
  have hout : transferDepartment s user (some id) (some d) comment savedAt
      = (okResponse "Complaint transferred successfully",
         { complaints :=
             (saveComplaint s (timestamped c { c with assignedDepartment := d } savedAt)).complaints,
           statusUpdates := s.statusUpdates ++
             [{ _id := ⟨s.nextId⟩, complaint := c._id, status := c.status,
                comment := some (trim (orText comment
                  ("Transferred from " ++ c.assignedDepartment ++ " to " ++ d))),
                updatedBy := user.username, department := some d }],
           nextId := s.nextId + 1 }) := by
    unfold transferDepartment
    simp [hadmin, hdne, hd, hc, saveStatusUpdate, statusUpdateValid, hst, hname, saveComplaint,
      timestamped]
  have hid2 : (timestamped c { c with assignedDepartment := d } savedAt)._id = id := hid
  refine ⟨_, by rw [hout], by rw [hout], ?_, ?_, ?_, hid, rfl, rfl, rfl, ?_, ?_⟩
  · rw [hout, ← hts]
    show findById (saveComplaint s _) id = _
    rw [findById_saveComplaint]
    simp [hid2, hc]
  · intro other e hne he
    rw [hout]
    show findById (saveComplaint s _) other = _
    rw [findById_saveComplaint]
    have hne2 : ¬ (timestamped c { c with assignedDepartment := d } savedAt)._id = other := by
      rw [hid2]
      exact fun h => hne h.symm
    simp [hne2, he]
  · rw [hout]
    exact saveComplaint_ids s _
  · intro t ht hne
    subst ht
    simp [orText, hne]
  · intro hf
    have : orText comment ("Transferred from " ++ c.assignedDepartment ++ " to " ++ d)
        = "Transferred from " ++ c.assignedDepartment ++ " to " ++ d := by
      cases comment with
      | none => rfl
      | some t =>
        have : t = "" := by simpa [truthy] using hf
        simp [orText, this]
    show some (trim _) = _
    rw [this, trim_transfer _ _ hd]

/-- Witness of C20: the admin transfers the submitted complaint to `water`. -/
theorem transfer_frame_witness :
    officer.role = "admin" ∧ officer.username ≠ "" ∧
    findById submittedStore ⟨0⟩ = some sampleComplaint ∧
    sampleComplaint.status ∈ validStatuses ∧ "water" ∈ validDepartments ∧
    findById (transferDepartment submittedStore officer (some ⟨0⟩) (some "water") none 1).2 ⟨0⟩
      = some { sampleComplaint with
          assignedDepartment := "water",
          updatedAt := if "water" = sampleComplaint.assignedDepartment
            then sampleComplaint.updatedAt else 1 } :=
  ⟨by decide, by decide, by decide, by decide, by decide,
    Exists.elim
      (transfer_frame submittedStore officer ⟨0⟩ sampleComplaint "water" none 1 (by decide)
        (by decide) (by decide) (by decide) (by decide))
      (fun _ h => h.2.2.1)⟩

/-! ## Lemmas on the log, the statuses and the admin update -/

theorem orText_given {x : Option String} {v d : String} (hx : x = some v) (hne : v ≠ "") :
    orText x d = v := by
  subst hx
  simp [orText, hne]

theorem orText_omitted {x : Option String} {d : String} (h : truthy x = false) :
    orText x d = d := by
  cases x with
  | none => rfl
  | some v =>
    have : v = "" := by simpa [truthy] using h
    simp [orText, this]

theorem saveStatusUpdate_extends {s s2 : Store} {cid : ObjectId} {st : String}
    {cm : Option String} {by_ : String} {dp : Option String}
    (h : saveStatusUpdate s cid st cm by_ dp = some s2) :
    s.statusUpdates <+: s2.statusUpdates := by
  rw [saveStatusUpdate_eq h]
  exact List.prefix_append _ _

theorem step_log_extends (s : Store) (r : Request) :
    s.statusUpdates <+: (step s r).2.statusUpdates := by
  cases r with
  | submit user body file now =>
    show s.statusUpdates <+: (submit s user body file now).2.statusUpdates
    unfold submit
    repeat' (first | dsimp only | split)
    all_goals first
      | exact List.prefix_refl _
      | (have hs := ‹saveStatusUpdate _ _ _ _ _ _ = some _›
         have hp := saveStatusUpdate_extends hs
         exact hp)
  | updateStatus user tid a b c d t =>
    show s.statusUpdates <+: (updateStatus s user tid a b c d t).2.statusUpdates
    unfold updateStatus
    repeat' (first | dsimp only | split)
    all_goals first
      | exact List.prefix_refl _
      | (have hs := ‹saveStatusUpdate _ _ _ _ _ _ = some _›
         have hp := saveStatusUpdate_extends hs
         exact hp)
  | transferDepartment user tid a b t =>
    show s.statusUpdates <+: (transferDepartment s user tid a b t).2.statusUpdates
    unfold transferDepartment
    repeat' (first | dsimp only | split)
    all_goals first
      | exact List.prefix_refl _
      | (have hs := ‹saveStatusUpdate _ _ _ _ _ _ = some _›
         have hp := saveStatusUpdate_extends hs
         exact hp)
  | adminUpdate user tid body now t =>
    show s.statusUpdates <+: (adminUpdate s user tid body now t).2.statusUpdates
    unfold adminUpdate
    repeat' (first | dsimp only | split)
    all_goals first
      | exact List.prefix_refl _
      | (have hs := ‹saveStatusUpdate _ _ _ _ _ _ = some _›
         have hp := saveStatusUpdate_extends hs
         exact hp)
  | vote user tid vt t =>
    show s.statusUpdates <+: (vote s user tid vt t).2.statusUpdates
    unfold vote
    repeat' (first | dsimp only | split)
    all_goals exact List.prefix_refl _
  | submitFeedback user tid rating comment now t =>
    show s.statusUpdates <+: (submitFeedback s user tid rating comment now t).2.statusUpdates
    unfold submitFeedback
    repeat' (first | dsimp only | split)
    all_goals exact List.prefix_refl _

theorem valid_save {s : Store} {saved : Complaint} (hv : StatusesValid s)
    (hst : saved.status ∈ validStatuses) : StatusesValid (saveComplaint s saved) := by
  refine ⟨?_, hv.2⟩
  intro d hd
  simp only [saveComplaint, List.mem_map] at hd
  obtain ⟨e, he, rfl⟩ := hd
  split
  · exact hst
  · exact hv.1 e he

theorem valid_log {s s2 : Store} {cid : ObjectId} {st : String} {cm : Option String}
    {by_ : String} {dp : Option String} (hv : StatusesValid s)
    (hs : saveStatusUpdate s cid st cm by_ dp = some s2) : StatusesValid s2 := by
  have hst : st ∈ validStatuses := by
    unfold saveStatusUpdate at hs
    split at hs
    · rename_i h
      simp only [statusUpdateValid, Bool.and_eq_true] at h
      simpa using h.1.1
    · simp at hs
  rw [saveStatusUpdate_eq hs]
  refine ⟨hv.1, ?_⟩
  intro u hu
  simp only [List.mem_append, List.mem_singleton] at hu
  rcases hu with hu | rfl
  · exact hv.2 u hu
  · exact hst

theorem valid_insert {s : Store} {c : Complaint} (hv : StatusesValid s)
    (hst : c.status ∈ validStatuses) (n : Nat) :
    StatusesValid { complaints := s.complaints ++ [c], statusUpdates := s.statusUpdates,
                    nextId := n } := by
  refine ⟨?_, hv.2⟩
  intro d hd
  simp only [List.mem_append, List.mem_singleton] at hd
  rcases hd with hd | rfl
  · exact hv.1 d hd
  · exact hst

theorem mem_of_not_not_contains {l : List String} {x : String}
    (h : ¬ (!(l.contains x)) = true) : x ∈ l := by
  simpa using h

theorem orText_valid {x : Option String} {d : String} (hd : d ∈ validStatuses)
    (h : ¬ (truthy x && !(validStatuses.contains (orText x d))) = true) :
    orText x d ∈ validStatuses := by
  cases ht : truthy x with
  | false => rw [orText_omitted ht]; exact hd
  | true =>
    rw [ht] at h
    simpa using h

theorem step_valid (s : Store) (r : Request) (hv : StatusesValid s) :
    StatusesValid (step s r).2 := by
  have hpending : "pending" ∈ validStatuses := by decide
  cases r with
  | submit user body file now =>
    show StatusesValid (submit s user body file now).2
    unfold submit
    repeat' (first | dsimp only | split)
    all_goals first
      | exact hv
      | (have hs := ‹saveStatusUpdate _ _ _ _ _ _ = some _›
         exact valid_log (valid_insert hv hpending _) hs)
      | exact valid_insert hv hpending _
  | updateStatus user tid a b c d t =>
    show StatusesValid (updateStatus s user tid a b c d t).2
    unfold updateStatus
    repeat' (first | dsimp only | split)
    all_goals first
      | exact hv
      | (have hst := ‹¬ (!(validStatuses.contains _)) = true›
         have hm := mem_of_not_not_contains hst
         have hs := ‹saveStatusUpdate _ _ _ _ _ _ = some _›
         refine valid_log (valid_save hv ?_) hs
         exact hm)
      | (have hst := ‹¬ (!(validStatuses.contains _)) = true›
         have hm := mem_of_not_not_contains hst
         refine valid_save hv ?_
         exact hm)
  | transferDepartment user tid a b t =>
    show StatusesValid (transferDepartment s user tid a b t).2
    unfold transferDepartment
    repeat' (first | dsimp only | split)
    all_goals first
      | exact hv
      | (have h0 := ‹findById s _ = some _›
         have hm := hv.1 _ (findById_mem h0)
         have hs := ‹saveStatusUpdate _ _ _ _ _ _ = some _›
         refine valid_log (valid_save hv ?_) hs
         exact hm)
      | (have h0 := ‹findById s _ = some _›
         have hm := hv.1 _ (findById_mem h0)
         refine valid_save hv ?_
         exact hm)
  | adminUpdate user tid body now t =>
    show StatusesValid (adminUpdate s user tid body now t).2
    unfold adminUpdate
    repeat' (first | dsimp only | split)
    all_goals first
      | exact hv
      | (have h0 := ‹findById s _ = some _›
         have hcond := ‹¬ (_ || _ || _ || _) = true›
         simp only [Bool.or_eq_true, not_or] at hcond
         have hm := orText_valid (hv.1 _ (findById_mem h0)) hcond.1.1.1
         have hs := ‹saveStatusUpdate _ _ _ _ _ _ = some _›
         refine valid_log (valid_save hv ?_) hs
         exact hm)
      | (have h0 := ‹findById s _ = some _›
         have hcond := ‹¬ (_ || _ || _ || _) = true›
         simp only [Bool.or_eq_true, not_or] at hcond
         have hm := orText_valid (hv.1 _ (findById_mem h0)) hcond.1.1.1
         refine valid_save hv ?_
         exact hm)
  | vote user tid vt t =>
    show StatusesValid (vote s user tid vt t).2
    unfold vote
    repeat' (first | dsimp only | split)
    all_goals first
      | exact hv
      | (have h0 := ‹findById s _ = some _›
         have hm := hv.1 _ (findById_mem h0)
         refine valid_save hv ?_
         exact hm)
  | submitFeedback user tid rating comment now t =>
    show StatusesValid (submitFeedback s user tid rating comment now t).2
    unfold submitFeedback
    repeat' (first | dsimp only | split)
    all_goals first
      | exact hv
      | (have h0 := ‹findById s _ = some _›
         have hm := hv.1 _ (findById_mem h0)
         refine valid_save hv ?_
         exact hm)

theorem adminUpdate_ok_shape (s : Store) (user : ReqUser) (id : ObjectId)
    (body : AdminUpdateBody) (now savedAt : Nat) (c : Complaint) (hc : findById s id = some c) :
    (adminUpdate s user (some id) body now savedAt).1.ok = true →
    ∃ d u,
      adminUpdate s user (some id) body now savedAt
        = (okResponse "Complaint updated successfully",
           { complaints := (saveComplaint s d).complaints,
             statusUpdates := s.statusUpdates ++ [u], nextId := s.nextId + 1 }) ∧
      findById (adminUpdate s user (some id) body now savedAt).2 id = some d ∧
      d.status = orText body.status c.status ∧
      d.priority = orText body.priority c.priority ∧
      d.assignedDepartment = orText body.assignedDepartment c.assignedDepartment ∧
      (∀ v, body.assignedTo = some v → v ≠ "" → d.assignedTo = some (trim v)) ∧
      (truthy body.assignedTo = false → d.assignedTo = c.assignedTo) ∧
      d.escalated = body.escalated.getD c.escalated ∧
      (∀ p, body.deadline = some p → p.text ≠ "" → d.deadline = p.value) ∧
      (truthyParsed body.deadline = false → d.deadline = c.deadline) ∧
      (∀ n, body.internalNote = some n → n ≠ "" →
        d.internalNotes = c.internalNotes ++ [{ note := n, addedBy := user.username, addedAt := now }]) ∧
      (truthy body.internalNote = false → d.internalNotes = c.internalNotes) ∧
      u.complaint = id ∧ u.status = d.status ∧ u.department = some d.assignedDepartment ∧
      u.updatedBy = user.username ∧
      u.comment = some (trim (orText body.internalNote ("Updated by " ++ user.username))) := by
  have hid := findById_id hc
  unfold adminUpdate
  simp only [hc]
  repeat' (first | dsimp only | split)
  all_goals first
    | (intro hok; simp [errorResponse, Response.ok] at hok; done)
    | (intro _
       have hs := ‹saveStatusUpdate _ _ _ _ _ _ = some _›
       rw [saveStatusUpdate_eq hs]
       refine ⟨_, _, rfl, ?_, rfl, rfl, rfl, ?_, ?_, rfl, ?_, ?_, ?_, ?_, hid, rfl, rfl, rfl,
         rfl⟩
       · show findById (saveComplaint s _) id = _
         rw [findById_saveComplaint]
         simp [timestamped, hid, hc]
       · intro v hv hne
         first
           | (simp [timestamped, hv, truthy, hne]; done)
           | exact absurd (by simp [hv, truthy, hne]) ‹¬ truthy body.assignedTo = true›
       · intro hf
         first
           | (simp [timestamped, hf]; done)
           | exact absurd ((‹truthy body.assignedTo = true›).symm.trans hf) (by decide)
       · intro p hp hne
         simp [timestamped, hp, hne]
       · intro hf
         cases hd : body.deadline with
         | none => rfl
         | some p =>
           have : p.text = "" := by simpa [truthyParsed, hd] using hf
           simp [timestamped, this]
       · intro n hn hne
         simp [timestamped, hn, hne]
       · intro hf
         cases hn : body.internalNote with
         | none => rfl
         | some n =>
           have : n = "" := by simpa [truthy, hn] using hf
           simp [timestamped, this])

theorem ceilDiv_spec (total limit : Nat) (hl : 1 ≤ limit) :
    total ≤ ceilDiv total limit * limit ∧
    (ceilDiv total limit ≠ 0 → (ceilDiv total limit - 1) * limit < total) := by
  unfold ceilDiv
  have hpos : 0 < limit := hl
  have h1 := Nat.div_add_mod (total + limit - 1) limit
  have h2 := Nat.mod_lt (total + limit - 1) hpos
  constructor
  · have : limit * ((total + limit - 1) / limit) = (total + limit - 1) / limit * limit :=
      Nat.mul_comm _ _
    omega
  · intro hne
    have hq : 1 ≤ (total + limit - 1) / limit := Nat.one_le_iff_ne_zero.mpr hne
    have e : ((total + limit - 1) / limit - 1) * limit
        = limit * ((total + limit - 1) / limit) - limit := by
      rw [Nat.sub_mul, Nat.one_mul, Nat.mul_comm]
    have : limit ≤ limit * ((total + limit - 1) / limit) := Nat.le_mul_of_pos_right _ hq
    omega

theorem map_orderedInsert_view (c : Complaint) (l : List Complaint) :
    (List.orderedInsert (fun a b : Complaint => b.createdAt ≤ a.createdAt) c l).map publicView
      = List.orderedInsert (fun a b : PublicComplaint => b.createdAt ≤ a.createdAt)
          (publicView c) (l.map publicView) := by
  induction l with
  | nil => rfl
  | cons d l ih =>
    simp only [List.orderedInsert, List.map_cons]
    by_cases h : d.createdAt ≤ c.createdAt
    · have h' : (publicView d).createdAt ≤ (publicView c).createdAt := h
      simp [h, h']
    · have h' : ¬ (publicView d).createdAt ≤ (publicView c).createdAt := h
      simp [h, h', ih]

theorem map_insertionSort_view (l : List Complaint) :
    (l.insertionSort (fun a b => b.createdAt ≤ a.createdAt)).map publicView
      = (l.map publicView).insertionSort (fun a b => b.createdAt ≤ a.createdAt) := by
  induction l with
  | nil => rfl
  | cons d l ih =>
    simp only [List.insertionSort, List.map_cons]
    rw [map_orderedInsert_view, ih]

theorem filter_map_view (selects : String → Bool) (l : List Complaint) :
    (l.filter (fun c => selects c.status)).map publicView
      = (l.map publicView).filter (fun p => selects p.status) := by
  induction l with
  | nil => rfl
  | cons d l ih =>
    simp only [List.filter_cons, List.map_cons]
    have e : (publicView d).status = d.status := rfl
    rw [e]
    by_cases h : selects d.status = true
    · simp [h, ih]
    · simp [h, ih]

theorem publicListing_eq (s : Store) (status : Option StatusQuery) (selects : String → Bool)
    (h : statusCondition status = some selects) :
    publicListing s status
      = ({ status := 200 },
         ((s.complaints.map publicView).filter (fun p => selects p.status)).insertionSort
            (fun a b => b.createdAt ≤ a.createdAt)) := by
  unfold publicListing
  simp only [h]
  rw [map_insertionSort_view, filter_map_view]

theorem publicListing_perm (s : Store) (status : Option StatusQuery) (selects : String → Bool)
    (h : statusCondition status = some selects) :
    (publicListing s status).1 = { status := 200 } ∧
    (publicListing s status).2.Perm
      ((s.complaints.filter (fun c => selects c.status)).map
        (fun c => { _id := c._id, title := c.title, description := c.description,
                    category := c.category, location := c.location, status := c.status,
                    createdAt := c.createdAt })) := by
  unfold publicListing
  simp only [h]
  exact ⟨trivial, (List.perm_insertionSort _ _).map _⟩

theorem map_view_of_agree : ∀ (l m : List Complaint),
    List.Forall₂ (fun c e => c._id = e._id ∧ c.title = e.title ∧ c.description = e.description ∧
      c.category = e.category ∧ c.location = e.location ∧ c.status = e.status ∧
      c.createdAt = e.createdAt) l m → l.map publicView = m.map publicView := by
  intro l m h
  induction h with
  | nil => rfl
  | cons hab _ ih =>
    obtain ⟨h1, h2, h3, h4, h5, h6, h7⟩ := hab
    simp only [List.map_cons, ih, publicView, h1, h2, h3, h4, h5, h6, h7]

theorem handlers_on_reliable :
    (∀ s user body file now, submitOn Storage.reliable s user body file now
      = submit s user body file now) ∧
    (∀ s user id status comment dept to_ savedAt,
      updateStatusOn Storage.reliable s user id status comment dept to_ savedAt
        = updateStatus s user id status comment dept to_ savedAt) ∧
    (∀ s user id dept comment savedAt,
      transferDepartmentOn Storage.reliable s user id dept comment savedAt
        = transferDepartment s user id dept comment savedAt) ∧
    (∀ s user id body now savedAt, adminUpdateOn Storage.reliable s user id body now savedAt
      = adminUpdate s user id body now savedAt) := by
  refine ⟨?_, ?_, ?_, ?_⟩ <;> intros <;> rfl

theorem updateStatusOn_error (st : Storage) (s : Store) (user : ReqUser) (id : Option ObjectId)
    (status comment dept to_ : Option String) (savedAt : Nat) :
    (updateStatusOn st s user id status comment dept to_ savedAt).1.ok = false →
    (updateStatusOn st s user id status comment dept to_ savedAt).2.statusUpdates = s.statusUpdates ∧
    (((updateStatusOn st s user id status comment dept to_ savedAt).1.status < 500 ∨
        st.complaintWriteFails = true) →
      (updateStatusOn st s user id status comment dept to_ savedAt).2 = s) := by
  unfold updateStatusOn
  repeat' (first | dsimp only | split)
  all_goals first
    | (intro _; exact ⟨rfl, fun _ => rfl⟩)
    | (intro hok; simp [okResponse, Response.ok] at hok; done)
    | (intro _
       refine ⟨rfl, fun h => ?_⟩
       rcases h with h | h
       · simp [errorResponse] at h
       · exact absurd h ‹¬ st.complaintWriteFails = true›)

theorem submitOn_error (st : Storage) (s : Store) (user : Option ReqUser) (body : SubmitBody)
    (file : Option String) (now : Nat) :
    (submitOn st s user body file now).1.ok = false →
    (submitOn st s user body file now).2.statusUpdates = s.statusUpdates ∧
    (((submitOn st s user body file now).1.status < 500 ∨ st.complaintWriteFails = true) →
      (submitOn st s user body file now).2 = s) := by
  unfold submitOn
  repeat' (first | dsimp only | split)
  all_goals first
    | (intro _; exact ⟨rfl, fun _ => rfl⟩)
    | (intro hok; simp [okResponse, Response.ok] at hok; done)
    | (intro _
       refine ⟨rfl, fun h => ?_⟩
       rcases h with h | h
       · simp [errorResponse] at h
       · exact absurd h ‹¬ st.complaintWriteFails = true›)

theorem transferDepartmentOn_error (st : Storage) (s : Store) (user : ReqUser)
    (id : Option ObjectId) (dept comment : Option String)
    (savedAt : Nat) :
    (transferDepartmentOn st s user id dept comment savedAt).1.ok = false →
    (transferDepartmentOn st s user id dept comment savedAt).2.statusUpdates = s.statusUpdates ∧
    (((transferDepartmentOn st s user id dept comment savedAt).1.status < 500 ∨ st.complaintWriteFails = true) →
      (transferDepartmentOn st s user id dept comment savedAt).2 = s) := by
  unfold transferDepartmentOn
  repeat' (first | dsimp only | split)
  all_goals first
    | (intro _; exact ⟨rfl, fun _ => rfl⟩)
    | (intro hok; simp [okResponse, Response.ok] at hok; done)
    | (intro _
       refine ⟨rfl, fun h => ?_⟩
       rcases h with h | h
       · simp [errorResponse] at h
       · exact absurd h ‹¬ st.complaintWriteFails = true›)

theorem adminUpdateOn_error (st : Storage) (s : Store) (user : ReqUser)
    (id : Option ObjectId) (body : AdminUpdateBody)
    (now savedAt : Nat) :
    (adminUpdateOn st s user id body now savedAt).1.ok = false →
    (adminUpdateOn st s user id body now savedAt).2.statusUpdates = s.statusUpdates ∧
    (((adminUpdateOn st s user id body now savedAt).1.status < 500 ∨ st.complaintWriteFails = true) →
      (adminUpdateOn st s user id body now savedAt).2 = s) := by
  unfold adminUpdateOn
  repeat' (first | dsimp only | split)
  all_goals first
    | (intro _; exact ⟨rfl, fun _ => rfl⟩)
    | (intro hok; simp [okResponse, Response.ok] at hok; done)
    | (intro _
       refine ⟨rfl, fun h => ?_⟩
       rcases h with h | h
       · simp [errorResponse] at h
       · exact absurd h ‹¬ st.complaintWriteFails = true›)

/-! ## Claims on the admin update, the auth gate, listings and seeding -/

/-- Counterexample to C21: the admin supplies the status `bogus`, the request is
answered 500 and the complaint keeps its status; and the admin supplies the
assignedTo ` Bob `, the request succeeds and the complaint is assigned to `Bob`,
as it is when no-break spaces surround the name. -/
theorem adminUpdate_supplied_not_taken :
    adminUpdate submittedStore officer (some ⟨0⟩) { emptyUpdate with status := some "bogus" } 1 1
      = (errorResponse 500 "Failed to update complaint", submittedStore) ∧
    (adminUpdate submittedStore officer (some ⟨0⟩)
        { emptyUpdate with assignedTo := some " Bob " } 1 1).1.ok = true ∧
    (findById (adminUpdate submittedStore officer (some ⟨0⟩)
        { emptyUpdate with assignedTo := some " Bob " } 1 1).2 ⟨0⟩).map (fun c => c.assignedTo)
      = some (some "Bob") ∧
    (findById (adminUpdate submittedStore officer (some ⟨0⟩)
        { emptyUpdate with assignedTo := some "\u00A0Bob\u00A0" } 1 1).2 ⟨0⟩).map
          (fun c => c.assignedTo)
      = some (some "Bob") := by
  decide

/-- Claim C21 as amended: after a successful adminUpdate of an existing complaint,
each of status, priority, assignedDepartment, assignedTo and deadline that is
omitted or empty, and escalated when omitted, keeps its previous value; each that
is supplied takes the supplied value, assignedTo with surrounding whitespace
removed and deadline as the date its text denotes; the internal notes are
unchanged when no note is given and otherwise grow by exactly one entry at the
end, with the note text and addedBy the actor's username. -/
theorem adminUpdate_fields (s : Store) (user : ReqUser) (id : ObjectId)
    (body : AdminUpdateBody) (now savedAt : Nat) (c : Complaint) (hc : findById s id = some c)
    (hok : (adminUpdate s user (some id) body now savedAt).1.ok = true) :
    ∃ d, findById (adminUpdate s user (some id) body now savedAt).2 id = some d ∧
      (∀ v, body.status = some v → v ≠ "" → d.status = v) ∧
      (truthy body.status = false → d.status = c.status) ∧
      (∀ v, body.priority = some v → v ≠ "" → d.priority = v) ∧
      (truthy body.priority = false → d.priority = c.priority) ∧
      (∀ v, body.assignedDepartment = some v → v ≠ "" → d.assignedDepartment = v) ∧
      (truthy body.assignedDepartment = false → d.assignedDepartment = c.assignedDepartment) ∧
      (∀ v, body.assignedTo = some v → v ≠ "" → d.assignedTo = some (trim v)) ∧
      (truthy body.assignedTo = false → d.assignedTo = c.assignedTo) ∧
      (∀ b, body.escalated = some b → d.escalated = b) ∧
      (body.escalated = none → d.escalated = c.escalated) ∧
      (∀ p, body.deadline = some p → p.text ≠ "" → d.deadline = p.value) ∧
      (truthyParsed body.deadline = false → d.deadline = c.deadline) ∧
      (∀ n, body.internalNote = some n → n ≠ "" →
        d.internalNotes
          = c.internalNotes ++ [{ note := n, addedBy := user.username, addedAt := now }]) ∧
      (truthy body.internalNote = false → d.internalNotes = c.internalNotes) := by
  obtain ⟨d, u, _, hfind, hst, hpr, hdep, hto1, hto2, hesc, hdl1, hdl2, hn1, hn2, _⟩ :=
    adminUpdate_ok_shape s user id body now savedAt c hc hok
  refine ⟨d, hfind, ?_, ?_, ?_, ?_, ?_, ?_, hto1, hto2, ?_, ?_, hdl1, hdl2, hn1, hn2⟩
  · intro v hv hne; rw [hst]; exact orText_given hv hne
  · intro hf; rw [hst]; exact orText_omitted hf
  · intro v hv hne; rw [hpr]; exact orText_given hv hne
  · intro hf; rw [hpr]; exact orText_omitted hf
  · intro v hv hne; rw [hdep]; exact orText_given hv hne
  · intro hf; rw [hdep]; exact orText_omitted hf
  · intro b hb; rw [hesc, hb]; rfl
  · intro hb; rw [hesc, hb]; rfl

/-- Witness of C21 as amended: the admin moves the submitted complaint to
`in_progress`. -/
theorem adminUpdate_fields_witness :
    findById submittedStore ⟨0⟩ = some sampleComplaint ∧
    (adminUpdate submittedStore officer (some ⟨0⟩)
      { emptyUpdate with status := some "in_progress" } 1 1).1.ok = true ∧
    ∃ d, findById (adminUpdate submittedStore officer (some ⟨0⟩)
        { emptyUpdate with status := some "in_progress" } 1 1).2 ⟨0⟩ = some d ∧
      d.status = "in_progress" ∧ d.priority = sampleComplaint.priority :=
  ⟨by decide, by decide,
    Exists.elim
      (adminUpdate_fields submittedStore officer ⟨0⟩
        { emptyUpdate with status := some "in_progress" } 1 1 sampleComplaint (by decide)
        (by decide))
      (fun d h => ⟨d, h.1, h.2.1 "in_progress" rfl (by decide), h.2.2.2.2.1 rfl⟩)⟩

/-- Counterexample to C22: the internal note ` checked ` is given and the appended
StatusUpdate carries the comment `checked`, as it does when no-break spaces
surround the note. -/
theorem adminUpdate_comment_trimmed :
    (adminUpdate submittedStore officer (some ⟨0⟩)
        { emptyUpdate with internalNote := some " checked " } 1 1).1.ok = true ∧
    (adminUpdate submittedStore officer (some ⟨0⟩)
        { emptyUpdate with internalNote := some " checked " } 1 1).2.statusUpdates.map
          (fun u => u.comment)
      = [some "Complaint submitted", some "checked"] ∧
    (adminUpdate submittedStore officer (some ⟨0⟩)
        { emptyUpdate with internalNote := some "\u00A0checked\u00A0" } 1 1).2.statusUpdates.map
          (fun u => u.comment)
      = [some "Complaint submitted", some "checked"] := by
  decide

/-- Claim C22 as amended: a successful adminUpdate appends exactly one StatusUpdate;
it references the complaint, its status and department are those of the
complaint after the update, updatedBy is the actor's username, and its comment is
the internal note when one is given and `Updated by <username>` otherwise, in
both cases with surrounding whitespace removed. -/
theorem adminUpdate_log_entry (s : Store) (user : ReqUser) (id : ObjectId)
    (body : AdminUpdateBody) (now savedAt : Nat) (c : Complaint) (hc : findById s id = some c)
    (hok : (adminUpdate s user (some id) body now savedAt).1.ok = true) :
    ∃ d u,
      (adminUpdate s user (some id) body now savedAt).2.statusUpdates = s.statusUpdates ++ [u] ∧
      findById (adminUpdate s user (some id) body now savedAt).2 id = some d ∧
      u.complaint = id ∧ u.status = d.status ∧ u.department = some d.assignedDepartment ∧
      u.updatedBy = user.username ∧
      (∀ n, body.internalNote = some n → n ≠ "" → u.comment = some (trim n)) ∧
      (truthy body.internalNote = false →
        u.comment = some (trim ("Updated by " ++ user.username))) := by
  obtain ⟨d, u, heq, hfind, _, _, _, _, _, _, _, _, _, _, huc, hus, hud, hub, hcm⟩ :=
    adminUpdate_ok_shape s user id body now savedAt c hc hok
  refine ⟨d, u, by rw [heq], hfind, huc, hus, hud, hub, ?_, ?_⟩
  · intro n hn hne; rw [hcm, orText_given hn hne]
  · intro hf; rw [hcm, orText_omitted hf]

/-- Witness of C22 as amended: the admin adds a note to the submitted complaint. -/
theorem adminUpdate_log_entry_witness :
    findById submittedStore ⟨0⟩ = some sampleComplaint ∧
    (adminUpdate submittedStore officer (some ⟨0⟩)
      { emptyUpdate with internalNote := some "Crew sent" } 1 1).1.ok = true ∧
    ∃ u, (adminUpdate submittedStore officer (some ⟨0⟩)
        { emptyUpdate with internalNote := some "Crew sent" } 1 1).2.statusUpdates
        = submittedStore.statusUpdates ++ [u] ∧
      u.updatedBy = officer.username ∧ u.comment = some (trim "Crew sent") :=
  ⟨by decide, by decide,
    Exists.elim
      (adminUpdate_log_entry submittedStore officer ⟨0⟩
        { emptyUpdate with internalNote := some "Crew sent" } 1 1 sampleComplaint (by decide)
        (by decide))
      (fun _ h => Exists.elim h (fun u hu =>
        ⟨u, hu.1, hu.2.2.2.2.2.1, hu.2.2.2.2.2.2.1 "Crew sent" rfl (by decide)⟩))⟩

/-- Claim C23: the gate calls the handler exactly when the header carries a token
that verifies and the user of its subject exists and is active, and then with the
id, username and role of that user; in every other case it sends a response and
the handler is not called: 401 without a token, 403 for an invalid or an expired
token, and 403 for a verified token whose user is absent (its payload names no
id, or the id of no user) or inactive. Together with the 500 for a subject that is
no ObjectId and for any other error thrown, these are all the cases. -/
theorem auth_gate (verify : String → VerifyOutcome) (users : List UserDoc)
    (authorization : Option String) :
    (∀ identity, authenticateToken verify users authorization = .next identity ↔
      ∃ token id user, bearerToken authorization = some token ∧ token ≠ "" ∧
        verify token = .decoded (.objectId id) ∧
        users.find? (fun u => u._id == id) = some user ∧ user.isActive = true ∧
        identity = { id := user._id, username := user.username, role := user.role }) ∧
    ((bearerToken authorization = none ∨ bearerToken authorization = some "") →
      authenticateToken verify users authorization
        = .respond (errorResponse 401 "Access token required")) ∧
    (∀ token, bearerToken authorization = some token → token ≠ "" →
      (verify token = .jsonWebTokenError →
        authenticateToken verify users authorization
          = .respond (errorResponse 403 "Invalid token")) ∧
      (verify token = .tokenExpiredError →
        authenticateToken verify users authorization
          = .respond (errorResponse 403 "Token expired")) ∧
      (verify token = .decoded .missing →
        authenticateToken verify users authorization
          = .respond (errorResponse 403 "User not found or inactive")) ∧
      (∀ id, verify token = .decoded (.objectId id) →
        (users.find? (fun u => u._id == id) = none ∨
          ∃ user, users.find? (fun u => u._id == id) = some user ∧ user.isActive = false) →
        authenticateToken verify users authorization
          = .respond (errorResponse 403 "User not found or inactive")) ∧
      ((verify token = .decoded .malformed ∨ verify token = .otherError) →
        authenticateToken verify users authorization
          = .respond (errorResponse 500 "Authentication error"))) := by
  refine ⟨?_, ?_, ?_⟩
  · intro identity
    constructor
    · intro h
      unfold authenticateToken at h
      repeat' (first | dsimp only at h | split at h)
      all_goals first
        | (cases h; done)
        | (cases h
           rename_i token htok hne _ id hver _ user hfind hact
           exact ⟨token, id, user, htok, by simpa using hne, hver, hfind, by simpa using hact,
             rfl⟩)
    · rintro ⟨token, id, user, ht, hne, hv, hf, ha, rfl⟩
      unfold authenticateToken
      simp [ht, hne, hv, hf, ha]
  · intro h
    unfold authenticateToken
    rcases h with h | h
    · simp [h]
    · simp [h]
  · intro token ht hne
    refine ⟨fun hv => ?_, fun hv => ?_, fun hv => ?_, fun id hv hu => ?_, fun hv => ?_⟩
    · unfold authenticateToken
      simp [ht, hne, hv]
    · unfold authenticateToken
      simp [ht, hne, hv]
    · unfold authenticateToken
      simp [ht, hne, hv]
    · unfold authenticateToken
      rcases hu with hu | ⟨user, hu, ha⟩
      · simp [ht, hne, hv, hu]
      · simp [ht, hne, hv, hu, ha]
    · unfold authenticateToken
      rcases hv with hv | hv
      · simp [ht, hne, hv]
      · simp [ht, hne, hv]

/-- Witness of C23: alice's token passes; bob is blocked; a token without an id, an
expired token and a missing header are refused. -/
theorem auth_gate_witness :
    authenticateToken sampleVerify sampleUsers (some "Bearer good") = .next alice ∧
    authenticateToken sampleVerify sampleUsers (some "Bearer blocked")
      = .respond (errorResponse 403 "User not found or inactive") ∧
    authenticateToken sampleVerify sampleUsers (some "Bearer bare")
      = .respond (errorResponse 403 "User not found or inactive") ∧
    authenticateToken sampleVerify sampleUsers (some "Bearer old")
      = .respond (errorResponse 403 "Token expired") ∧
    authenticateToken sampleVerify sampleUsers none
      = .respond (errorResponse 401 "Access token required") :=
  ⟨((auth_gate sampleVerify sampleUsers (some "Bearer good")).1 alice).mpr
      ⟨"good", ⟨100⟩, { _id := ⟨100⟩, username := "alice", role := "citizen", isActive := true },
        by decide, by decide, by decide, by decide, by decide, by decide⟩,
    ((auth_gate sampleVerify sampleUsers (some "Bearer blocked")).2.2 "blocked" (by decide)
      (by decide)).2.2.2.1 ⟨101⟩ (by decide)
      (Or.inr ⟨{ _id := ⟨101⟩, username := "bob", role := "citizen", isActive := false },
        by decide, by decide⟩),
    ((auth_gate sampleVerify sampleUsers (some "Bearer bare")).2.2 "bare" (by decide)
      (by decide)).2.2.1 (by decide),
    ((auth_gate sampleVerify sampleUsers (some "Bearer old")).2.2 "old" (by decide)
      (by decide)).2.1 (by decide),
    (auth_gate sampleVerify sampleUsers none).2.1 (Or.inl (by decide))⟩

/-- Claim C24: for a page and a limit of at least 1 and any list of matching
records, the listing returns the records at the 1-based positions
(page-1)*limit+1 to min(page*limit, N), echoes page, limit and total = N, and
reports the ceiling of N/limit as pages; page 2 with limit 5 of 12 records gives
records 6 to 10 and 3 pages. -/
theorem paginate_window {α : Type} (page limit : Nat) (hp : 1 ≤ page) (hl : 1 ≤ limit)
    (records : List α) :
    (paginate (some page) (some limit) records).1.length
      = min (page * limit) records.length - (page - 1) * limit ∧
    (∀ k, k < (paginate (some page) (some limit) records).1.length →
      (paginate (some page) (some limit) records).1.get? k
        = records.get? ((page - 1) * limit + k)) ∧
    (paginate (some page) (some limit) records).2.page = page ∧
    (paginate (some page) (some limit) records).2.limit = limit ∧
    (paginate (some page) (some limit) records).2.total = records.length ∧
    records.length ≤ (paginate (some page) (some limit) records).2.pages * limit ∧
    ((paginate (some page) (some limit) records).2.pages ≠ 0 →
      ((paginate (some page) (some limit) records).2.pages - 1) * limit < records.length) ∧
    paginate (some 2) (some 5) (List.range' 1 12)
      = ([6, 7, 8, 9, 10], { page := 2, limit := 5, total := 12, pages := 3 }) := by
  have hlen : (paginate (some page) (some limit) records).1.length
      = min (page * limit) records.length - (page - 1) * limit := by
    simp only [paginate, Option.getD_some, List.length_take, List.length_drop]
    have e : page * limit = (page - 1) * limit + limit := by
      obtain ⟨q, rfl⟩ : ∃ q, page = q + 1 := ⟨page - 1, by omega⟩
      simp [Nat.add_mul]
    omega
  refine ⟨hlen, ?_, rfl, rfl, rfl, (ceilDiv_spec records.length limit hl).1,
    (ceilDiv_spec records.length limit hl).2, by decide⟩
  intro k hk
  simp only [paginate, Option.getD_some] at hk ⊢
  rw [List.length_take] at hk
  rw [List.get?_eq_getElem?, List.get?_eq_getElem?, List.getElem?_take]
  have hk' : k < limit := by omega
  simp [hk', List.getElem?_drop]

/-- Witness of C24: page 2 with limit 5 of the records 1 to 12. -/
theorem paginate_window_witness :
    1 ≤ 2 ∧ 1 ≤ 5 ∧
    (paginate (some 2) (some 5) (List.range' 1 12)).1.length
      = min (2 * 5) (List.range' 1 12).length - (2 - 1) * 5 ∧
    (paginate (some 2) (some 5) (List.range' 1 12)).2.total = (List.range' 1 12).length :=
  ⟨by decide, by decide,
    (paginate_window 2 5 (by decide) (by decide) (List.range' 1 12)).1,
    (paginate_window 2 5 (by decide) (by decide) (List.range' 1 12)).2.2.2.2.1⟩

/-- Counterexample to C25: the complaint write succeeds and the StatusUpdate write
is refused; the request is answered 500, the log is as before, and the complaint
is stored with the new status. -/
theorem log_write_failure_keeps_complaint :
    (updateStatusOn { complaintWriteFails := false, logWriteFails := true } submittedStore officer
        (some ⟨0⟩) (some "resolved") none none none 1).1
      = errorResponse 500 "Database error" ∧
    (findById (updateStatusOn { complaintWriteFails := false, logWriteFails := true }
        submittedStore officer (some ⟨0⟩) (some "resolved") none none none 1).2 ⟨0⟩).map
        (fun c => c.status) = some "resolved" ∧
    (findById submittedStore ⟨0⟩).map (fun c => c.status) = some "pending" ∧
    (updateStatusOn { complaintWriteFails := false, logWriteFails := true } submittedStore officer
        (some ⟨0⟩) (some "resolved") none none none 1).2.statusUpdates
      = submittedStore.statusUpdates := by
  decide

/-- Claim C25 as amended: whenever submit, updateStatus, transferDepartment or
adminUpdate responds with an error, the status log is as it was before the
request, and so is the whole store when the error is a 4xx rejection or the
complaint write is refused. -/
theorem errors_leave_log (st : Storage) (s : Store) :
    (∀ user body file now, (submitOn st s user body file now).1.ok = false →
      (submitOn st s user body file now).2.statusUpdates = s.statusUpdates ∧
      (((submitOn st s user body file now).1.status < 500 ∨ st.complaintWriteFails = true) →
        (submitOn st s user body file now).2 = s)) ∧
    (∀ user id status comment dept to_ savedAt,
      (updateStatusOn st s user id status comment dept to_ savedAt).1.ok = false →
      (updateStatusOn st s user id status comment dept to_ savedAt).2.statusUpdates
        = s.statusUpdates ∧
      (((updateStatusOn st s user id status comment dept to_ savedAt).1.status < 500 ∨
          st.complaintWriteFails = true) →
        (updateStatusOn st s user id status comment dept to_ savedAt).2 = s)) ∧
    (∀ user id dept comment savedAt,
      (transferDepartmentOn st s user id dept comment savedAt).1.ok = false →
      (transferDepartmentOn st s user id dept comment savedAt).2.statusUpdates
        = s.statusUpdates ∧
      (((transferDepartmentOn st s user id dept comment savedAt).1.status < 500 ∨
          st.complaintWriteFails = true) →
        (transferDepartmentOn st s user id dept comment savedAt).2 = s)) ∧
    (∀ user id body now savedAt,
      (adminUpdateOn st s user id body now savedAt).1.ok = false →
      (adminUpdateOn st s user id body now savedAt).2.statusUpdates = s.statusUpdates ∧
      (((adminUpdateOn st s user id body now savedAt).1.status < 500 ∨
          st.complaintWriteFails = true) →
        (adminUpdateOn st s user id body now savedAt).2 = s)) :=
  ⟨fun user body file now => submitOn_error st s user body file now,
    fun user id status comment dept to_ savedAt =>
      updateStatusOn_error st s user id status comment dept to_ savedAt,
    fun user id dept comment savedAt =>
      transferDepartmentOn_error st s user id dept comment savedAt,
    fun user id body now savedAt => adminUpdateOn_error st s user id body now savedAt⟩

/-- Witness of C25 as amended: the refused StatusUpdate write, and a refused
complaint write. -/
theorem errors_leave_log_witness :
    (updateStatusOn { complaintWriteFails := false, logWriteFails := true } submittedStore officer
        (some ⟨0⟩) (some "resolved") none none none 1).2.statusUpdates
      = submittedStore.statusUpdates ∧
    (updateStatusOn { complaintWriteFails := true, logWriteFails := false } submittedStore officer
        (some ⟨0⟩) (some "resolved") none none none 1).2 = submittedStore :=
  ⟨((errors_leave_log { complaintWriteFails := false, logWriteFails := true }
      submittedStore).2.1 officer (some ⟨0⟩) (some "resolved") none none none 1 (by decide)).1,
    ((errors_leave_log { complaintWriteFails := true, logWriteFails := false }
      submittedStore).2.1 officer (some ⟨0⟩) (some "resolved") none none none 1 (by decide)).2
      (Or.inr rfl)⟩

/-- Claim C26: for every request and every store, the log before the request is a
start of the log after it, and so it is after any sequence of requests. -/
theorem log_append_only (s : Store) (r : Request) (rs : List Request) :
    s.statusUpdates <+: (step s r).2.statusUpdates ∧
    s.statusUpdates <+: (run s rs).statusUpdates := by
  refine ⟨step_log_extends s r, ?_⟩
  induction rs generalizing s with
  | nil => exact List.prefix_refl _
  | cons q qs ih => exact (step_log_extends s q).trans (ih (step s q).2)

/-- Counterexample to C27: the store holds a resolved and a pending complaint; the
query `?status[$ne]=pending` carries no status, and its listing holds the resolved
complaint, where the default listing holds the pending one. -/
theorem operator_query_lists_other_statuses :
    mixedStore.complaints.map (fun c => (c._id, c.status))
      = [(⟨0⟩, "resolved"), (⟨2⟩, "pending")] ∧
    (publicListing mixedStore (some notPending)).1.status = 200 ∧
    (publicListing mixedStore (some notPending)).2.map (fun r => (r._id, r.status))
      = [(⟨0⟩, "resolved")] ∧
    (publicListing mixedStore none).2.map (fun r => (r._id, r.status))
      = [(⟨2⟩, "pending")] := by
  decide

/-- Claim C27 as amended: when the query carries no status or a text, the public
listing is answered 200 and holds exactly the complaints whose status is that
text, `pending` when there is none. Whatever the query carries, every record of
the listing consists of the identifier, title, description, category, location,
status and creation time of a stored complaint, and the listing is the same for
two stores whose complaints agree on these seven fields, whatever their citizen
references, contact records, votes, feedback, notes and assignments. -/
theorem public_listing_exact (s : Store) (status : Option StatusQuery) :
    (∀ wanted, (status = none ∧ wanted = "pending") ∨ status = some (.text wanted) →
      (publicListing s status).1 = { status := 200 } ∧
      (publicListing s status).2.Perm
        ((s.complaints.filter (fun c => c.status == wanted)).map
          (fun c => { _id := c._id, title := c.title, description := c.description,
                      category := c.category, location := c.location, status := c.status,
                      createdAt := c.createdAt }))) ∧
    (∀ r ∈ (publicListing s status).2, ∃ c ∈ s.complaints,
      r._id = c._id ∧ r.title = c.title ∧ r.description = c.description ∧
      r.category = c.category ∧ r.location = c.location ∧ r.status = c.status ∧
      r.createdAt = c.createdAt) ∧
    (∀ t : Store,
      List.Forall₂ (fun c e => c._id = e._id ∧ c.title = e.title ∧
        c.description = e.description ∧ c.category = e.category ∧ c.location = e.location ∧
        c.status = e.status ∧ c.createdAt = e.createdAt) s.complaints t.complaints →
      publicListing s status = publicListing t status) := by
  refine ⟨?_, ?_, ?_⟩
  · intro wanted h
    have hc : statusCondition status = some (fun st => st == wanted) := by
      rcases h with ⟨rfl, rfl⟩ | rfl <;> rfl
    exact publicListing_perm s status _ hc
  · intro r hr
    cases hc : statusCondition status with
    | none =>
      unfold publicListing at hr
      simp [hc] at hr
    | some selects =>
      have hp := (publicListing_perm s status selects hc).2
      rw [hp.mem_iff] at hr
      simp only [List.mem_map, List.mem_filter] at hr
      obtain ⟨c, ⟨hmem, _⟩, rfl⟩ := hr
      exact ⟨c, hmem, rfl, rfl, rfl, rfl, rfl, rfl, rfl⟩
  · intro t h
    cases hc : statusCondition status with
    | none =>
      unfold publicListing
      simp [hc]
    | some selects =>
      rw [publicListing_eq s status selects hc, publicListing_eq t status selects hc,
        map_view_of_agree _ _ h]

/-- Witness of C27 as amended: the listing of the resolved complaints, and the
stored complaint behind the one record of the default listing. -/
theorem public_listing_exact_witness :
    (publicListing mixedStore (some (.text "resolved"))).2.Perm
      ((mixedStore.complaints.filter (fun c => c.status == "resolved")).map
        (fun c => { _id := c._id, title := c.title, description := c.description,
                    category := c.category, location := c.location, status := c.status,
                    createdAt := c.createdAt })) ∧
    ∃ c ∈ mixedStore.complaints, c._id = ⟨2⟩ ∧ c.title = "Pothole" ∧ c.status = "pending" :=
  ⟨((public_listing_exact mixedStore (some (.text "resolved"))).1 "resolved" (Or.inr rfl)).2,
    Exists.elim
      ((public_listing_exact mixedStore none).2.1
        { _id := ⟨2⟩, title := "Pothole", description := "Deep hole", category := "pothole",
          location := { latitude := 12, longitude := 77, address := none }, status := "pending",
          createdAt := 3 } (by decide))
      (fun c h => ⟨c, h.1, h.2.1.symm, h.2.2.1.symm, h.2.2.2.2.2.2.1.symm⟩)⟩

/-- Claim C28: after any sequence of requests from the empty store, whatever their
bodies and whether they succeed, the status of every complaint and of every
StatusUpdate is one of pending, in_progress, resolved, closed. -/
theorem statuses_stay_valid (rs : List Request) :
    (∀ c ∈ (run Store.empty rs).complaints, c.status ∈ validStatuses) ∧
    (∀ u ∈ (run Store.empty rs).statusUpdates, u.status ∈ validStatuses) := by
  have hrun : ∀ (qs : List Request) (s : Store), StatusesValid s → StatusesValid (run s qs) := by
    intro qs
    induction qs with
    | nil => intro s hv; exact hv
    | cons q qs ih => intro s hv; exact ih _ (step_valid s q hv)
  have hempty : StatusesValid Store.empty := by
    constructor
    · intro c hc; simp [Store.empty] at hc
    · intro u hu; simp [Store.empty] at hu
  exact hrun rs Store.empty hempty

/-- Claim C29, evaluated where it fails: alice's bearer token passes the auth gate,
and her submission with the anonymous box checked, sent with that token, creates
a complaint without a citizen reference whose initial StatusUpdate is updated by
`Anonymous` and not by `alice`: the route is mounted without the gate, so no
identity reaches the handler although one is attached to the request. The
handler itself, run with her identity in `req.user`, logs `alice`. -/
theorem authenticated_submission_logged_anonymous :
    authenticateToken sampleVerify sampleUsers (some "Bearer good") = .next alice ∧
    anonymousFlagForm.isAnonymous = some "true" ∧
    (postComplaint Store.empty (some "Bearer good") anonymousFlagForm none 0).1.status = 201 ∧
    (postComplaint Store.empty (some "Bearer good") anonymousFlagForm none 0).2.statusUpdates.map
        (fun u => u.updatedBy) = ["Anonymous"] ∧
    alice.username ≠ "Anonymous" ∧
    (postComplaint Store.empty (some "Bearer good") anonymousFlagForm none 0).2.complaints.map
        (fun c => c.citizen) = [none] ∧
    (submit Store.empty (some alice) anonymousFlagForm none 0).2.statusUpdates.map
        (fun u => u.updatedBy) = ["alice"] := by
  decide

/-- Claim C30, evaluated where it fails: the first default department lists `roads`,
which is not a category of the enum, and seeding the empty collection creates no
department; each of the nine categories is listed by exactly one default
department. -/
theorem seeding_creates_nothing :
    createDefaultDepartments [] = [] ∧
    (defaultDepartments.head?.map (fun d => d.categories)) = some ["pothole", "sidewalk", "roads"] ∧
    "roads" ∉ validCategories ∧
    (∀ c ∈ validCategories,
      (defaultDepartments.filter (fun d => d.categories.contains c)).length = 1) := by
  decide

end CityCare
